import Mathlib

/-! A Lean model of the HydrogenCG ray-casting renderer (ray_casting/part2).

Scalars are modelled by `ℝ`; the float value `INFINITY` (used as the
"no intersection" sentinel and as an unbounded ray-segment endpoint) is
modelled by `⊤ : EReal`, with finite distances embedded through the real
coercion.  Each definition mirrors one function of the C++ source:
`core/math/math.hpp`, `core/math/vec.hpp`, `core/ray.hpp`,
`core/intersection.hpp`, `core/sphere.hpp`, `core/light.hpp`,
`core/scene.hpp` and `core/integrator.hpp`.
-/

noncomputable section

/-- 3-dimensional real vector, mirroring `HydrogenCG::vec3`. -/
structure Vec3 where
  x : ℝ
  y : ℝ
  z : ℝ

/-- Componentwise addition, `vec.hpp` `operator+(vec3, vec3)`. -/
def Vec3.add (a b : Vec3) : Vec3 := ⟨a.x + b.x, a.y + b.y, a.z + b.z⟩

/-- Componentwise subtraction, `vec.hpp` `operator-(vec3, vec3)`. -/
def Vec3.sub (a b : Vec3) : Vec3 := ⟨a.x - b.x, a.y - b.y, a.z - b.z⟩

/-- Componentwise negation, `vec.hpp` `operator-(vec3)`. -/
def Vec3.neg (a : Vec3) : Vec3 := ⟨-a.x, -a.y, -a.z⟩

/-- Componentwise (Hadamard) product, `vec.hpp` `operator*(vec3, vec3)`. -/
def Vec3.hadamard (a b : Vec3) : Vec3 := ⟨a.x * b.x, a.y * b.y, a.z * b.z⟩

/-- Vector-times-scalar, `vec.hpp` `operator*(vec3, float)`. -/
def Vec3.mulScalar (v : Vec3) (s : ℝ) : Vec3 := ⟨v.x * s, v.y * s, v.z * s⟩

/-- Scalar-times-vector, `vec.hpp` `operator*(float, vec3)`. -/
def Vec3.scalarMul (s : ℝ) (v : Vec3) : Vec3 := ⟨s * v.x, s * v.y, s * v.z⟩

/-- Vector-by-scalar division.  `vec.hpp` `operator/(vec3, float)` multiplies
each component with the reciprocal `1/rhs`. -/
def Vec3.divScalar (v : Vec3) (s : ℝ) : Vec3 := v.mulScalar ((1 : ℝ) / s)

instance : Add Vec3 := ⟨Vec3.add⟩
instance : Sub Vec3 := ⟨Vec3.sub⟩
instance : Neg Vec3 := ⟨Vec3.neg⟩
instance : Mul Vec3 := ⟨Vec3.hadamard⟩
instance : HMul Vec3 ℝ Vec3 := ⟨Vec3.mulScalar⟩
instance : HMul ℝ Vec3 Vec3 := ⟨Vec3.scalarMul⟩
instance : HDiv Vec3 ℝ Vec3 := ⟨Vec3.divScalar⟩

/-- The `explicit vec3(float)` constructor: all components equal. -/
def Vec3.splat (s : ℝ) : Vec3 := ⟨s, s, s⟩

/-- Dot product, `vec.hpp` `dot(vec3, vec3)`. -/
def Vec3.dot (a b : Vec3) : ℝ := a.x * b.x + a.y * b.y + a.z * b.z

/-- Squared euclidean norm, `vec.hpp` `lengthSquared`. -/
def Vec3.lengthSquared (a : Vec3) : ℝ := Vec3.dot a a

/-- Euclidean norm, `vec.hpp` `length`. -/
def Vec3.length (a : Vec3) : ℝ := Real.sqrt a.lengthSquared

/-- `math.hpp` `min(float, float)`: `lhs <= rhs ? lhs : rhs`. -/
def fmin (lhs rhs : ℝ) : ℝ := if lhs ≤ rhs then lhs else rhs

/-- `math.hpp` `max(float, float)`: `lhs >= rhs ? lhs : rhs`. -/
def fmax (lhs rhs : ℝ) : ℝ := if lhs ≥ rhs then lhs else rhs

/-- `math.hpp` `clamp(arg, minVal, maxVal) = max(min(arg, maxVal), minVal)`. -/
def clamp (arg minVal maxVal : ℝ) : ℝ := fmax (fmin arg maxVal) minVal

/-- `math.hpp` `smoothstepCubic(x) = x*x*(3 - 2*x)` (unclamped). -/
def smoothstepCubic (x : ℝ) : ℝ := x * x * (3 - 2 * x)

/-- `math.hpp` `smoothstep(edge0, edge1, x)`, mirroring GLSL. -/
def smoothstep (edge0 edge1 x : ℝ) : ℝ :=
  smoothstepCubic (clamp ((x - edge0) / (edge1 - edge0)) 0 1)

/-- `math.hpp` `EPSILON = 0.0001f`, the shared self-intersection offset. -/
def EPSILON : ℝ := 0.0001

/-- `math.hpp` `PI`. -/
def PI : ℝ := Real.pi

/-- `math.hpp` `INV_PI = 1.0f / PI`. -/
def INV_PI : ℝ := 1 / PI

/-- `ray.hpp` `Ray`: origin `o` and direction `d` (ideally unit length). -/
structure Ray where
  o : Vec3
  d : Vec3

/-- `ray.hpp` `Ray::at(t) = o + t * d`. -/
def Ray.at (ray : Ray) (t : ℝ) : Vec3 := ray.o + t * ray.d

/-- `intersection.hpp` `Intersection`: distance (with `⊤` as the `INFINITY`
sentinel), position, surface normal and surface color. -/
structure Intersection where
  dist : EReal
  pos : Vec3
  normal : Vec3
  color : Vec3

/-- `intersection.hpp` `noIntersection()`: the default record, distance
`INFINITY` and zeroed fields. -/
def noIntersection : Intersection :=
  ⟨⊤, Vec3.splat 0, Vec3.splat 0, Vec3.splat 0⟩

/-- `intersection.hpp` `valid(intersection) = (dist < INFINITY)`. -/
def Intersection.valid (i : Intersection) : Prop := i.dist < ⊤

instance (i : Intersection) : Decidable i.valid :=
  inferInstanceAs (Decidable (i.dist < ⊤))

/-- `sphere.hpp` `Sphere`: center (`origin` in the source), radius, albedo. -/
structure Sphere where
  origin : Vec3
  radius : ℝ
  color : Vec3

/-- `sphere.hpp` `Sphere::normal(p) = (p - origin) / radius`. -/
def Sphere.normal (s : Sphere) (p : Vec3) : Vec3 := (p - s.origin) / s.radius

/-- The quadratic coefficient `b = dot(ray.d, origin - ray.o)` computed by
`Sphere::intersect` and `Sphere::intersectAny`. -/
def Sphere.bCoef (s : Sphere) (ray : Ray) : ℝ := Vec3.dot ray.d (s.origin - ray.o)

/-- The quadratic coefficient `c = dot(oPos, oPos) - radius*radius`. -/
def Sphere.cCoef (s : Sphere) (ray : Ray) : ℝ :=
  Vec3.dot (s.origin - ray.o) (s.origin - ray.o) - s.radius * s.radius

/-- The discriminant `d = b*b - c`. -/
def Sphere.disc (s : Sphere) (ray : Ray) : ℝ := s.bCoef ray * s.bCoef ray - s.cCoef ray

/-- The near quadratic root `t1 = b - sqrt(d)`. -/
def Sphere.tNear (s : Sphere) (ray : Ray) : ℝ := s.bCoef ray - Real.sqrt (s.disc ray)

/-- The far quadratic root `t2 = b + sqrt(d)`. -/
def Sphere.tFar (s : Sphere) (ray : Ray) : ℝ := s.bCoef ray + Real.sqrt (s.disc ray)

/-- The intersection record `Intersection(t, pos, normal(pos), color)` built by
`Sphere::intersect` on a hit at parameter `t`. -/
def Sphere.hitAt (s : Sphere) (ray : Ray) (t : ℝ) : Intersection :=
  ⟨(t : EReal), ray.at t, s.normal (ray.at t), s.color⟩

/-- `sphere.hpp` `Sphere::intersect(ray, minT, maxT)`: solve the unit-leading
quadratic; `d <= 0` means no intersection; otherwise return the first of the
roots `t1 <= t2` lying strictly inside `(minT, maxT)`, else no intersection. -/
def Sphere.intersect (s : Sphere) (ray : Ray) (minT maxT : EReal) : Intersection :=
  if s.disc ray ≤ 0 then noIntersection
  else if ((s.tNear ray : EReal) > minT ∧ (s.tNear ray : EReal) < maxT) then
    s.hitAt ray (s.tNear ray)
  else if ((s.tFar ray : EReal) > minT ∧ (s.tFar ray : EReal) < maxT) then
    s.hitAt ray (s.tFar ray)
  else noIntersection

/-- `sphere.hpp` `Sphere::intersectAny(ray, minT, maxT)`: the same algebra as
`intersect` without building the record, returning
`(d > 0) && ((t1 in range) || (t2 in range))`. -/
def Sphere.intersectAny (s : Sphere) (ray : Ray) (minT maxT : EReal) : Bool :=
  decide (s.disc ray > 0) &&
    (decide ((s.tNear ray : EReal) > minT ∧ (s.tNear ray : EReal) < maxT) ||
     decide ((s.tFar ray : EReal) > minT ∧ (s.tFar ray : EReal) < maxT))

/-- `light.hpp` `LightSample`: radiance travelling toward the shaded point,
the direction from the shaded point to the light, and the distance to the
light (`⊤` for the directional family). -/
structure LightSample where
  radiance : Vec3
  direction : Vec3
  distanceToLight : EReal

/-- `light.hpp` `AmbientLight`. -/
structure AmbientLight where
  radiance : Vec3

/-- `AmbientLight::sampleRadiance(pos)`: constant radiance, zero direction,
zero distance. -/
def AmbientLight.sampleRadiance (l : AmbientLight) (_pos : Vec3) : LightSample :=
  ⟨l.radiance, Vec3.splat 0, ((0 : ℝ) : EReal)⟩

/-- `light.hpp` `PointLight`: isotropic intensity and position. -/
structure PointLight where
  intensity : Vec3
  origin : Vec3

/-- `PointLight::sampleRadiance(pos)`: normalize the vector to the light and
apply the inverse-square falloff. -/
def PointLight.sampleRadiance (l : PointLight) (pos : Vec3) : LightSample :=
  let posToLight := l.origin - pos
  let distanceToLight := Vec3.length posToLight
  let dir := posToLight / distanceToLight
  let squaredDistanceToLight := distanceToLight * distanceToLight
  ⟨l.intensity / squaredDistanceToLight, dir, (distanceToLight : EReal)⟩

/-- `light.hpp` `DirectionalLight`: radiosity and light travel direction. -/
structure DirectionalLight where
  radiosity : Vec3
  direction : Vec3

/-- `DirectionalLight::sampleRadiance(pos)`: constant radiance, direction
`-direction`, infinite distance. -/
def DirectionalLight.sampleRadiance (l : DirectionalLight) (_pos : Vec3) : LightSample :=
  ⟨l.radiosity, -l.direction, (⊤ : EReal)⟩

/-- `light.hpp` `ConeLight`: a point light restricted to a cone. -/
structure ConeLight where
  intensity : Vec3
  origin : Vec3
  direction : Vec3
  cosPhi : ℝ

/-- `ConeLight::sampleRadiance(pos)`: sample as a point light, then attenuate
by a smoothstep of the cone angle times a sinusoidal texture. -/
def ConeLight.sampleRadiance (l : ConeLight) (pos : Vec3) : LightSample :=
  let pointLight : PointLight := ⟨l.intensity, l.origin⟩
  let lightSample := pointLight.sampleRadiance pos
  let cosLightCone := -(Vec3.dot lightSample.direction l.direction)
  let att := smoothstep l.cosPhi 1 cosLightCone
  let tex := 0.5 + 0.5 * Real.sin (200 * cosLightCone)
  { lightSample with radiance := lightSample.radiance * (att * tex) }

/-- `light.hpp` `CylinderLight`: a directional light restricted to a
finite-radius cylinder. -/
structure CylinderLight where
  radiosity : Vec3
  origin : Vec3
  direction : Vec3
  radius : ℝ

/-- `CylinderLight::sampleRadiance(pos)`: sample as a directional light, then
attenuate by a smoothstep of the distance from the cylinder axis times a
sinusoidal texture. -/
def CylinderLight.sampleRadiance (l : CylinderLight) (pos : Vec3) : LightSample :=
  let directionalLight : DirectionalLight := ⟨l.radiosity, l.direction⟩
  let lightSample := directionalLight.sampleRadiance pos
  let lightToPos := pos - l.origin
  let projOnLightDir := Vec3.dot lightToPos l.direction * l.direction
  let projOnLightPlane := lightToPos - projOnLightDir
  let magnitudeProjectedVector := Vec3.length projOnLightPlane
  let att := smoothstep 0 1 (l.radius - magnitudeProjectedVector)
  let tex := 0.5 + 0.5 * Real.sin (15 * magnitudeProjectedVector)
  { lightSample with radiance := lightSample.radiance * (tex * att) }

/-- `scene.hpp` `Scene`: the sphere collection and the light collections. -/
structure Scene where
  spheres : List Sphere
  ambientLight : AmbientLight
  pointLights : List PointLight
  directionalLights : List DirectionalLight
  coneLights : List ConeLight
  cylinderLights : List CylinderLight

/-- One step of the `Scene::intersect` loop: query the sphere with the upper
bound narrowed to the best distance so far, and keep the closer record. -/
def Scene.intersectStep (ray : Ray) (minT : EReal) (result : Intersection)
    (s : Sphere) : Intersection :=
  let temp := s.intersect ray minT result.dist
  if temp.dist < result.dist then temp else result

/-- `scene.hpp` `Scene::intersect(ray, minT, maxT)`: linear scan over the
spheres starting from a record with distance `maxT`; return the best record
if it beats `maxT`, else `noIntersection()`. -/
def Scene.intersect (scene : Scene) (ray : Ray) (minT maxT : EReal) : Intersection :=
  let result := scene.spheres.foldl (Scene.intersectStep ray minT)
    ⟨maxT, Vec3.splat 0, Vec3.splat 0, Vec3.splat 0⟩
  if result.dist < maxT then result else noIntersection

/-- One step of the spec-side unnarrowed scan: every sphere is queried with
the full `(minT, maxT)` range (no progressive narrowing). -/
def Scene.intersectStepUnnarrowed (ray : Ray) (minT maxT : EReal)
    (result : Intersection) (s : Sphere) : Intersection :=
  let temp := s.intersect ray minT maxT
  if temp.dist < result.dist then temp else result

/-- Spec-side variant of `Scene::intersect` in which every sphere is queried
with the full `(minT, maxT)` range; the claim states that the progressive
narrowing performed by the implementation does not change the result. -/
def Scene.intersectUnnarrowed (scene : Scene) (ray : Ray) (minT maxT : EReal) :
    Intersection :=
  let result := scene.spheres.foldl (Scene.intersectStepUnnarrowed ray minT maxT)
    ⟨maxT, Vec3.splat 0, Vec3.splat 0, Vec3.splat 0⟩
  if result.dist < maxT then result else noIntersection

/-- `scene.hpp` `Scene::intersectAny(ray, minT, maxT)`: true as soon as any
sphere reports an intersection. -/
def Scene.intersectAny (scene : Scene) (ray : Ray) (minT maxT : EReal) : Bool :=
  scene.spheres.any fun s => s.intersectAny ray minT maxT

/-- The loop body of `TransparencyIntegrator::radiance`, with the remaining
iteration count as fuel.  Each iteration finds the nearest hit in
`(0, INFINITY)`; no hit returns the accumulated color, a hit attenuates the
color by the surface color and continues the ray from
`pos - EPSILON * orientedNormal`; running out of fuel returns black. -/
def transparencyLoop (scene : Scene) : Nat → Ray → Vec3 → Vec3
  | 0, _, _ => Vec3.splat 0
  | n + 1, ray, color =>
    let intersection := scene.intersect ray 0 ⊤
    if intersection.valid then
      let cosRayNormal := Vec3.dot ray.d intersection.normal
      let normal := if cosRayNormal < 0 then intersection.normal else -intersection.normal
      transparencyLoop scene n ⟨intersection.pos - EPSILON * normal, ray.d⟩
        (color * intersection.color)
    else color

/-- `integrator.hpp` `TransparencyIntegrator::radiance`: start from color
`(1,1,1)` and run at most 11 attenuation segments. -/
def TransparencyIntegrator.radiance (scene : Scene) (r : Ray) : Vec3 :=
  transparencyLoop scene 11 r (Vec3.splat 1)

/-- The camera-facing normal computed by the shading integrators: the
intersection normal, flipped when `dot(ray.d, normal) >= 0`. -/
def orientedNormal (ray : Ray) (i : Intersection) : Vec3 :=
  if Vec3.dot ray.d i.normal < 0 then i.normal else -i.normal

/-- The body of every light loop in
`DiffuseLocalDirectIlluminationIntegrator::radiance`:
`albedo * radiance * cosLambert * visibility` with `visibility = 1`. -/
def diffuseLocalContribution (albedo normal : Vec3) (lightSample : LightSample) :
    Vec3 :=
  let cosLambert := fmax 0 (Vec3.dot normal lightSample.direction)
  let visibility : ℝ := 1
  albedo * lightSample.radiance * cosLambert * visibility

/-- `integrator.hpp` `DiffuseLocalDirectIlluminationIntegrator::radiance`:
one-bounce Lambertian shading with the visibility term hard-coded to 1. -/
def DiffuseLocalDirectIlluminationIntegrator.radiance (scene : Scene) (ray : Ray) :
    Vec3 :=
  let intersection := scene.intersect ray 0 ⊤
  if intersection.valid then
    let pos := intersection.pos
    let albedo := intersection.color * INV_PI
    let cosRayNormal := Vec3.dot ray.d intersection.normal
    let normal := if cosRayNormal < 0 then intersection.normal else -intersection.normal
    let color0 := Vec3.splat 0 +
      PI * albedo * (scene.ambientLight.sampleRadiance pos).radiance
    let color1 := scene.pointLights.foldl (fun color l =>
      color + diffuseLocalContribution albedo normal (l.sampleRadiance pos)) color0
    let color2 := scene.directionalLights.foldl (fun color l =>
      color + diffuseLocalContribution albedo normal (l.sampleRadiance pos)) color1
    let color3 := scene.coneLights.foldl (fun color l =>
      color + diffuseLocalContribution albedo normal (l.sampleRadiance pos)) color2
    let color4 := scene.cylinderLights.foldl (fun color l =>
      color + diffuseLocalContribution albedo normal (l.sampleRadiance pos)) color3
    color4
  else Vec3.splat 0

/-- The epsilon-offset shading point `intersection.pos + EPSILON * normal`
used by `DiffuseDirectIlluminationIntegrator::radiance` for light sampling
and shadow-ray origins. -/
def DiffuseDirectIlluminationIntegrator.shadingPoint (scene : Scene) (ray : Ray) :
    Vec3 :=
  let intersection := scene.intersect ray 0 ⊤
  let cosRayNormal := Vec3.dot ray.d intersection.normal
  let normal := if cosRayNormal < 0 then intersection.normal else -intersection.normal
  intersection.pos + EPSILON * normal

/-- The body of every light loop in
`DiffuseDirectIlluminationIntegrator::radiance`: the Lambert term times the
visibility obtained from an any-hit shadow query over
`(0, distanceToLight)` from the epsilon-offset shading point `pos`. -/
def diffuseDirectContribution (scene : Scene) (albedo normal pos : Vec3)
    (lightSample : LightSample) : Vec3 :=
  let cosLambert := fmax 0 (Vec3.dot normal lightSample.direction)
  let shadowRay : Ray := ⟨pos, lightSample.direction⟩
  let visibility : ℝ :=
    if scene.intersectAny shadowRay 0 lightSample.distanceToLight then 0 else 1
  albedo * lightSample.radiance * cosLambert * visibility

/-- `integrator.hpp` `DiffuseDirectIlluminationIntegrator::radiance`:
Lambertian direct illumination with per-light any-hit shadow queries from the
epsilon-offset shading point. -/
def DiffuseDirectIlluminationIntegrator.radiance (scene : Scene) (ray : Ray) :
    Vec3 :=
  let intersection := scene.intersect ray 0 ⊤
  if intersection.valid then
    let albedo := intersection.color * INV_PI
    let cosRayNormal := Vec3.dot ray.d intersection.normal
    let normal := if cosRayNormal < 0 then intersection.normal else -intersection.normal
    let pos := intersection.pos + EPSILON * normal
    let color0 := Vec3.splat 0 +
      PI * albedo * (scene.ambientLight.sampleRadiance intersection.pos).radiance
    let color1 := scene.pointLights.foldl (fun color l =>
      color + diffuseDirectContribution scene albedo normal pos (l.sampleRadiance pos))
      color0
    let color2 := scene.directionalLights.foldl (fun color l =>
      color + diffuseDirectContribution scene albedo normal pos (l.sampleRadiance pos))
      color1
    let color3 := scene.coneLights.foldl (fun color l =>
      color + diffuseDirectContribution scene albedo normal pos (l.sampleRadiance pos))
      color2
    let color4 := scene.cylinderLights.foldl (fun color l =>
      color + diffuseDirectContribution scene albedo normal pos (l.sampleRadiance pos))
      color3
    color4
  else Vec3.splat 0

instance : Zero Vec3 := ⟨Vec3.splat 0⟩

instance : AddCommMonoid Vec3 where
  add_assoc := by
    intro a b c
    show Vec3.add (Vec3.add a b) c = Vec3.add a (Vec3.add b c)
    cases a; cases b; cases c
    simp [Vec3.add, add_assoc]
  zero_add := by
    intro a
    show Vec3.add (Vec3.splat 0) a = a
    cases a
    simp [Vec3.add, Vec3.splat]
  add_zero := by
    intro a
    show Vec3.add a (Vec3.splat 0) = a
    cases a
    simp [Vec3.add, Vec3.splat]
  add_comm := by
    intro a b
    show Vec3.add a b = Vec3.add b a
    cases a; cases b
    simp [Vec3.add, add_comm]
  nsmul := nsmulRec

/-- A probe ray from the world origin along the positive `z` axis. -/
def probeRay : Ray := ⟨⟨0, 0, 0⟩, ⟨0, 0, 1⟩⟩

/-- A unit sphere centered on the `z` axis at distance `5`, with albedo `a`. -/
def sphereAt5 (a : Vec3) : Sphere := ⟨⟨0, 0, 5⟩, 1, a⟩

/-- A unit sphere centered on the `z` axis at distance `10`, with albedo `a`. -/
def sphereAt10 (a : Vec3) : Sphere := ⟨⟨0, 0, 10⟩, 1, a⟩

/-- A single-sphere scene with no lights. -/
def sceneSingle (a : Vec3) : Scene :=
  ⟨[sphereAt5 a], ⟨Vec3.splat 0⟩, [], [], [], []⟩

/-- One white unit sphere at `z = 5` and one point light at the world origin
(intensity `16` so the inverse-square falloff at distance `4` is exactly 1). -/
def scenePoint : Scene :=
  ⟨[sphereAt5 (Vec3.splat 1)], ⟨Vec3.splat 0⟩, [⟨Vec3.splat 16, Vec3.splat 0⟩],
    [], [], []⟩

/-- One white unit sphere at `z = 5` and one directional light travelling
along `+z`. -/
def sceneDir : Scene :=
  ⟨[sphereAt5 (Vec3.splat 1)], ⟨Vec3.splat 0⟩, [],
    [⟨Vec3.splat 1, ⟨0, 0, 1⟩⟩], [], []⟩

/-- Two geometrically distinct spheres, forward order. -/
def scenePerm1 : Scene :=
  ⟨[sphereAt5 ⟨1, 0, 0⟩, sphereAt10 ⟨0, 1, 0⟩], ⟨Vec3.splat 0⟩, [], [], [], []⟩

/-- Two geometrically distinct spheres, reversed order. -/
def scenePerm2 : Scene :=
  ⟨[sphereAt10 ⟨0, 1, 0⟩, sphereAt5 ⟨1, 0, 0⟩], ⟨Vec3.splat 0⟩, [], [], [], []⟩

/-- Two spheres with identical geometry but different albedos: both are hit
at the same distance, a bit-exact tie. -/
def sceneTie : Scene :=
  ⟨[sphereAt5 ⟨1, 0, 0⟩, sphereAt5 ⟨0, 0, 1⟩], ⟨Vec3.splat 0⟩, [], [], [], []⟩

/-! ### Componentwise lemmas for the vector algebra -/

@[ext] theorem Vec3.ext {a b : Vec3} (hx : a.x = b.x) (hy : a.y = b.y)
    (hz : a.z = b.z) : a = b := by
  cases a; cases b; simp_all

@[simp] theorem Vec3.add_x (a b : Vec3) : (a + b).x = a.x + b.x := rfl

@[simp] theorem Vec3.add_y (a b : Vec3) : (a + b).y = a.y + b.y := rfl

@[simp] theorem Vec3.add_z (a b : Vec3) : (a + b).z = a.z + b.z := rfl

@[simp] theorem Vec3.sub_x (a b : Vec3) : (a - b).x = a.x - b.x := rfl

@[simp] theorem Vec3.sub_y (a b : Vec3) : (a - b).y = a.y - b.y := rfl

@[simp] theorem Vec3.sub_z (a b : Vec3) : (a - b).z = a.z - b.z := rfl

@[simp] theorem Vec3.neg_x (a : Vec3) : (-a).x = -a.x := rfl

@[simp] theorem Vec3.neg_y (a : Vec3) : (-a).y = -a.y := rfl

@[simp] theorem Vec3.neg_z (a : Vec3) : (-a).z = -a.z := rfl

@[simp] theorem Vec3.hmul_x (a b : Vec3) : (a * b).x = a.x * b.x := rfl

@[simp] theorem Vec3.hmul_y (a b : Vec3) : (a * b).y = a.y * b.y := rfl

@[simp] theorem Vec3.hmul_z (a b : Vec3) : (a * b).z = a.z * b.z := rfl

@[simp] theorem Vec3.mulScalar_x (v : Vec3) (s : ℝ) : (v * s).x = v.x * s := rfl

@[simp] theorem Vec3.mulScalar_y (v : Vec3) (s : ℝ) : (v * s).y = v.y * s := rfl

@[simp] theorem Vec3.mulScalar_z (v : Vec3) (s : ℝ) : (v * s).z = v.z * s := rfl

@[simp] theorem Vec3.scalarMul_x (s : ℝ) (v : Vec3) : (s * v).x = s * v.x := rfl

@[simp] theorem Vec3.scalarMul_y (s : ℝ) (v : Vec3) : (s * v).y = s * v.y := rfl

@[simp] theorem Vec3.scalarMul_z (s : ℝ) (v : Vec3) : (s * v).z = s * v.z := rfl

@[simp] theorem Vec3.divScalar_x (v : Vec3) (s : ℝ) : (v / s).x = v.x * (1 / s) := rfl

@[simp] theorem Vec3.divScalar_y (v : Vec3) (s : ℝ) : (v / s).y = v.y * (1 / s) := rfl

@[simp] theorem Vec3.divScalar_z (v : Vec3) (s : ℝ) : (v / s).z = v.z * (1 / s) := rfl

@[simp] theorem Vec3.splat_x (s : ℝ) : (Vec3.splat s).x = s := rfl

@[simp] theorem Vec3.splat_y (s : ℝ) : (Vec3.splat s).y = s := rfl

@[simp] theorem Vec3.splat_z (s : ℝ) : (Vec3.splat s).z = s := rfl

@[simp] theorem Vec3.mk_x (a b c : ℝ) : (Vec3.mk a b c).x = a := rfl

@[simp] theorem Vec3.mk_y (a b c : ℝ) : (Vec3.mk a b c).y = b := rfl

@[simp] theorem Vec3.mk_z (a b c : ℝ) : (Vec3.mk a b c).z = c := rfl

theorem Vec3.dot_def (a b : Vec3) :
    Vec3.dot a b = a.x * b.x + a.y * b.y + a.z * b.z := rfl

theorem Vec3.splat_one_mul (a : Vec3) : Vec3.splat 1 * a = a := by
  ext <;> simp

theorem Vec3.mul_one_scalar (a : Vec3) : a * (1 : ℝ) = a := by
  ext <;> simp

theorem Vec3.splat_zero_add (a : Vec3) : Vec3.splat 0 + a = a := by
  ext <;> simp

/-- A vector whose dot product with itself vanishes is the zero vector. -/
theorem Vec3.eq_splat_zero_of_dot_self (v : Vec3) (h : Vec3.dot v v = 0) :
    v = Vec3.splat 0 := by
  rw [Vec3.dot_def] at h
  have hx : v.x = 0 := by nlinarith [sq_nonneg v.x, sq_nonneg v.y, sq_nonneg v.z]
  have hy : v.y = 0 := by nlinarith [sq_nonneg v.x, sq_nonneg v.y, sq_nonneg v.z]
  have hz : v.z = 0 := by nlinarith [sq_nonneg v.x, sq_nonneg v.y, sq_nonneg v.z]
  ext <;> simp [hx, hy, hz]

theorem Vec3.dot_self_nonneg (v : Vec3) : 0 ≤ Vec3.dot v v := by
  rw [Vec3.dot_def]
  nlinarith [sq_nonneg v.x, sq_nonneg v.y, sq_nonneg v.z]

/-! ### Structure of the sphere intersection -/

@[simp] theorem Intersection.mk_dist (d : EReal) (p n c : Vec3) :
    (Intersection.mk d p n c).dist = d := rfl

@[simp] theorem Intersection.mk_pos (d : EReal) (p n c : Vec3) :
    (Intersection.mk d p n c).pos = p := rfl

@[simp] theorem Intersection.mk_normal (d : EReal) (p n c : Vec3) :
    (Intersection.mk d p n c).normal = n := rfl

@[simp] theorem Intersection.mk_color (d : EReal) (p n c : Vec3) :
    (Intersection.mk d p n c).color = c := rfl

theorem noIntersection_dist : noIntersection.dist = ⊤ := rfl

theorem noIntersection_not_valid : ¬ noIntersection.valid := by
  simp [Intersection.valid, noIntersection]

theorem Sphere.hitAt_dist (s : Sphere) (ray : Ray) (t : ℝ) :
    (s.hitAt ray t).dist = (t : EReal) := rfl

theorem Sphere.hitAt_valid (s : Sphere) (ray : Ray) (t : ℝ) :
    (s.hitAt ray t).valid := EReal.coe_lt_top t

theorem Sphere.tNear_le_tFar (s : Sphere) (ray : Ray) : s.tNear ray ≤ s.tFar ray := by
  unfold Sphere.tNear Sphere.tFar
  have := Real.sqrt_nonneg (s.disc ray)
  linarith

theorem Sphere.intersect_of_disc_nonpos (s : Sphere) (ray : Ray) (minT maxT : EReal)
    (h : s.disc ray ≤ 0) : s.intersect ray minT maxT = noIntersection := by
  unfold Sphere.intersect
  rw [if_pos h]

theorem Sphere.intersect_of_tNear (s : Sphere) (ray : Ray) (minT maxT : EReal)
    (hd : 0 < s.disc ray)
    (h1 : (s.tNear ray : EReal) > minT ∧ (s.tNear ray : EReal) < maxT) :
    s.intersect ray minT maxT = s.hitAt ray (s.tNear ray) := by
  unfold Sphere.intersect
  rw [if_neg (not_le.mpr hd), if_pos h1]

theorem Sphere.intersect_of_tFar (s : Sphere) (ray : Ray) (minT maxT : EReal)
    (hd : 0 < s.disc ray)
    (h1 : ¬ ((s.tNear ray : EReal) > minT ∧ (s.tNear ray : EReal) < maxT))
    (h2 : (s.tFar ray : EReal) > minT ∧ (s.tFar ray : EReal) < maxT) :
    s.intersect ray minT maxT = s.hitAt ray (s.tFar ray) := by
  unfold Sphere.intersect
  rw [if_neg (not_le.mpr hd), if_neg h1, if_pos h2]

theorem Sphere.intersect_of_miss (s : Sphere) (ray : Ray) (minT maxT : EReal)
    (hd : 0 < s.disc ray)
    (h1 : ¬ ((s.tNear ray : EReal) > minT ∧ (s.tNear ray : EReal) < maxT))
    (h2 : ¬ ((s.tFar ray : EReal) > minT ∧ (s.tFar ray : EReal) < maxT)) :
    s.intersect ray minT maxT = noIntersection := by
  unfold Sphere.intersect
  rw [if_neg (not_le.mpr hd), if_neg h1, if_neg h2]

/-- Exhaustive description of the three possible outcomes of
`Sphere::intersect`, together with the branch conditions that produced them. -/
theorem Sphere.intersect_cases (s : Sphere) (ray : Ray) (minT maxT : EReal) :
    (s.intersect ray minT maxT = noIntersection ∧
      (s.disc ray ≤ 0 ∨
        (¬ ((s.tNear ray : EReal) > minT ∧ (s.tNear ray : EReal) < maxT) ∧
         ¬ ((s.tFar ray : EReal) > minT ∧ (s.tFar ray : EReal) < maxT)))) ∨
    (0 < s.disc ray ∧ s.intersect ray minT maxT = s.hitAt ray (s.tNear ray) ∧
      ((s.tNear ray : EReal) > minT ∧ (s.tNear ray : EReal) < maxT)) ∨
    (0 < s.disc ray ∧ s.intersect ray minT maxT = s.hitAt ray (s.tFar ray) ∧
      ¬ ((s.tNear ray : EReal) > minT ∧ (s.tNear ray : EReal) < maxT) ∧
      ((s.tFar ray : EReal) > minT ∧ (s.tFar ray : EReal) < maxT)) := by
  unfold Sphere.intersect
  split_ifs with h1 h2 h3
  · exact Or.inl ⟨rfl, Or.inl h1⟩
  · exact Or.inr (Or.inl ⟨not_le.mp h1, rfl, h2⟩)
  · exact Or.inr (Or.inr ⟨not_le.mp h1, rfl, h2, h3⟩)
  · exact Or.inl ⟨rfl, Or.inr ⟨h2, h3⟩⟩

/-- A sphere intersection result beats the upper bound iff it is valid. -/
theorem Sphere.intersect_dist_lt_iff (s : Sphere) (ray : Ray) (minT maxT : EReal) :
    (s.intersect ray minT maxT).dist < maxT ↔ (s.intersect ray minT maxT).valid := by
  rcases Sphere.intersect_cases s ray minT maxT with ⟨h, _⟩ | ⟨_, h, _, hlt⟩ | ⟨_, h, _, _, hlt⟩
  · rw [h]
    simp [noIntersection, Intersection.valid]
  · rw [h, Sphere.hitAt_dist]
    simpa [Intersection.valid, Sphere.hitAt_dist] using hlt
  · rw [h, Sphere.hitAt_dist]
    simpa [Intersection.valid, Sphere.hitAt_dist] using hlt

/-- A valid sphere intersection lies strictly inside the query range. -/
theorem Sphere.intersect_valid_bounds (s : Sphere) (ray : Ray) (minT maxT : EReal)
    (h : (s.intersect ray minT maxT).valid) :
    minT < (s.intersect ray minT maxT).dist ∧
      (s.intersect ray minT maxT).dist < maxT := by
  rcases Sphere.intersect_cases s ray minT maxT with ⟨he, _⟩ | ⟨_, he, hgt, hlt⟩ |
    ⟨_, he, _, hgt, hlt⟩
  · rw [he] at h
    exact absurd h noIntersection_not_valid
  · rw [he, Sphere.hitAt_dist]
    exact ⟨hgt, hlt⟩
  · rw [he, Sphere.hitAt_dist]
    exact ⟨hgt, hlt⟩

/-- Narrowing the upper bound of a sphere query below the current best
distance does not change which hit is found: if the wide query's result beats
the narrow bound, the narrow query returns the same record, and a narrow hit
always implies the wide result also beats the narrow bound. -/
theorem Sphere.intersect_narrow (s : Sphere) (ray : Ray) (minT : EReal)
    {maxT maxT' : EReal} (h : maxT' ≤ maxT) :
    ((s.intersect ray minT maxT).dist < maxT' →
      s.intersect ray minT maxT' = s.intersect ray minT maxT) ∧
    ((s.intersect ray minT maxT').dist < maxT' →
      (s.intersect ray minT maxT).dist < maxT') := by
  constructor
  · intro hlt
    rcases Sphere.intersect_cases s ray minT maxT with ⟨he, _⟩ | ⟨hd, he, hgtN, _⟩ |
      ⟨hd, he, hnot, hgtF, _⟩
    · rw [he, noIntersection_dist] at hlt
      exact absurd hlt not_top_lt
    · rw [he, Sphere.hitAt_dist] at hlt
      rw [he, Sphere.intersect_of_tNear s ray minT maxT' hd ⟨hgtN, hlt⟩]
    · rw [he, Sphere.hitAt_dist] at hlt
      have hnotN : ¬ ((s.tNear ray : EReal) > minT ∧ (s.tNear ray : EReal) < maxT') := by
        intro hc
        exact hnot ⟨hc.1, lt_of_lt_of_le hc.2 h⟩
      rw [he, Sphere.intersect_of_tFar s ray minT maxT' hd hnotN ⟨hgtF, hlt⟩]
  · intro hlt
    rcases Sphere.intersect_cases s ray minT maxT' with ⟨he, _⟩ | ⟨hd, he, hgtN, _⟩ |
      ⟨hd, he, hnot, hgtF, _⟩
    · rw [he, noIntersection_dist] at hlt
      exact absurd hlt not_top_lt
    · rw [he, Sphere.hitAt_dist] at hlt
      rw [Sphere.intersect_of_tNear s ray minT maxT hd ⟨hgtN, lt_of_lt_of_le hlt h⟩,
        Sphere.hitAt_dist]
      exact hlt
    · rw [he, Sphere.hitAt_dist] at hlt
      by_cases hN : (s.tNear ray : EReal) > minT ∧ (s.tNear ray : EReal) < maxT
      · rw [Sphere.intersect_of_tNear s ray minT maxT hd hN, Sphere.hitAt_dist]
        exact lt_of_le_of_lt (EReal.coe_le_coe_iff.mpr (Sphere.tNear_le_tFar s ray)) hlt
      · rw [Sphere.intersect_of_tFar s ray minT maxT hd hN
          ⟨hgtF, lt_of_lt_of_le hlt h⟩, Sphere.hitAt_dist]
        exact hlt

/-! ### Structure of the scene scan -/

/-- One narrowed step of the scan agrees with the unnarrowed step as long as
the accumulator's distance is at most the original upper bound. -/
theorem Scene.intersectStep_eq_unnarrowed (ray : Ray) (minT maxT : EReal)
    (R : Intersection) (s : Sphere) (hR : R.dist ≤ maxT) :
    Scene.intersectStep ray minT R s =
      Scene.intersectStepUnnarrowed ray minT maxT R s := by
  simp only [Scene.intersectStep, Scene.intersectStepUnnarrowed]
  by_cases hB : (s.intersect ray minT maxT).dist < R.dist
  · rw [(Sphere.intersect_narrow s ray minT hR).1 hB]
  · rw [if_neg hB, if_neg fun hA => hB ((Sphere.intersect_narrow s ray minT hR).2 hA)]

theorem Scene.intersectStepUnnarrowed_dist_le (ray : Ray) (minT maxT : EReal)
    (R : Intersection) (s : Sphere) :
    (Scene.intersectStepUnnarrowed ray minT maxT R s).dist ≤ R.dist ∧
    (Scene.intersectStepUnnarrowed ray minT maxT R s).dist ≤
      (s.intersect ray minT maxT).dist := by
  simp only [Scene.intersectStepUnnarrowed]
  split_ifs with hlt
  · exact ⟨le_of_lt hlt, le_refl _⟩
  · exact ⟨le_refl _, not_lt.mp hlt⟩

theorem Scene.intersectStepUnnarrowed_cases (ray : Ray) (minT maxT : EReal)
    (R : Intersection) (s : Sphere) :
    Scene.intersectStepUnnarrowed ray minT maxT R s = R ∨
    Scene.intersectStepUnnarrowed ray minT maxT R s = s.intersect ray minT maxT := by
  simp only [Scene.intersectStepUnnarrowed]
  split_ifs
  · exact Or.inr rfl
  · exact Or.inl rfl

/-- The narrowed scan computes the same fold as the unnarrowed scan. -/
theorem Scene.foldl_narrow_eq (ray : Ray) (minT maxT : EReal) :
    ∀ (l : List Sphere) (R : Intersection), R.dist ≤ maxT →
      l.foldl (Scene.intersectStep ray minT) R =
      l.foldl (Scene.intersectStepUnnarrowed ray minT maxT) R := by
  intro l
  induction l with
  | nil => intro R _; rfl
  | cons s l ih =>
    intro R hR
    simp only [List.foldl_cons]
    rw [Scene.intersectStep_eq_unnarrowed ray minT maxT R s hR]
    exact ih _ (le_trans (Scene.intersectStepUnnarrowed_dist_le ray minT maxT R s).1 hR)

/-- The unnarrowed fold returns the accumulator or one of the sphere hits. -/
theorem Scene.foldl_unnarrowed_mem (ray : Ray) (minT maxT : EReal) :
    ∀ (l : List Sphere) (R : Intersection),
      l.foldl (Scene.intersectStepUnnarrowed ray minT maxT) R = R ∨
      ∃ s ∈ l, l.foldl (Scene.intersectStepUnnarrowed ray minT maxT) R =
        s.intersect ray minT maxT := by
  intro l
  induction l with
  | nil => intro R; exact Or.inl rfl
  | cons s l ih =>
    intro R
    simp only [List.foldl_cons]
    rcases ih (Scene.intersectStepUnnarrowed ray minT maxT R s) with h | ⟨u, hu, h⟩
    · rcases Scene.intersectStepUnnarrowed_cases ray minT maxT R s with hR | hS
      · exact Or.inl (h.trans hR)
      · exact Or.inr ⟨s, List.mem_cons_self s l, h.trans hS⟩
    · exact Or.inr ⟨u, List.mem_cons_of_mem s hu, h⟩

theorem Scene.foldl_unnarrowed_dist_le_init (ray : Ray) (minT maxT : EReal) :
    ∀ (l : List Sphere) (R : Intersection),
      (l.foldl (Scene.intersectStepUnnarrowed ray minT maxT) R).dist ≤ R.dist := by
  intro l
  induction l with
  | nil => intro R; exact le_refl _
  | cons s l ih =>
    intro R
    simp only [List.foldl_cons]
    exact le_trans (ih _) (Scene.intersectStepUnnarrowed_dist_le ray minT maxT R s).1

/-- The unnarrowed fold result is at least as close as every sphere hit. -/
theorem Scene.foldl_unnarrowed_dist_le (ray : Ray) (minT maxT : EReal) :
    ∀ (l : List Sphere) (R : Intersection), ∀ s ∈ l,
      (l.foldl (Scene.intersectStepUnnarrowed ray minT maxT) R).dist ≤
        (s.intersect ray minT maxT).dist := by
  intro l
  induction l with
  | nil => intro R s hs; exact absurd hs (List.not_mem_nil s)
  | cons u l ih =>
    intro R s hs
    simp only [List.foldl_cons]
    rcases List.mem_cons.mp hs with rfl | hmem
    · exact le_trans (Scene.foldl_unnarrowed_dist_le_init ray minT maxT l _)
        (Scene.intersectStepUnnarrowed_dist_le ray minT maxT R s).2
    · exact ih _ s hmem

/-- If no sphere hit beats the accumulator, the unnarrowed fold keeps it. -/
theorem Scene.foldl_unnarrowed_keep (ray : Ray) (minT maxT : EReal) :
    ∀ (l : List Sphere) (R : Intersection),
      (∀ s ∈ l, R.dist ≤ (s.intersect ray minT maxT).dist) →
      l.foldl (Scene.intersectStepUnnarrowed ray minT maxT) R = R := by
  intro l
  induction l with
  | nil => intro R _; rfl
  | cons s l ih =>
    intro R h
    simp only [List.foldl_cons]
    have hstep : Scene.intersectStepUnnarrowed ray minT maxT R s = R := by
      simp only [Scene.intersectStepUnnarrowed]
      rw [if_neg (not_lt.mpr (h s (List.mem_cons_self s l)))]
    rw [hstep]
    exact ih R fun u hu => h u (List.mem_cons_of_mem s hu)

/-- The implementation's progressively narrowed scan equals the spec-side
unnarrowed scan. -/
theorem Scene.intersect_eq_unnarrowed (scene : Scene) (ray : Ray)
    (minT maxT : EReal) :
    scene.intersect ray minT maxT = scene.intersectUnnarrowed ray minT maxT := by
  unfold Scene.intersect Scene.intersectUnnarrowed
  rw [Scene.foldl_narrow_eq ray minT maxT scene.spheres _ (le_refl maxT)]

theorem Scene.intersectUnnarrowed_eq_ite (scene : Scene) (ray : Ray)
    (minT maxT : EReal) :
    scene.intersectUnnarrowed ray minT maxT =
      if (scene.spheres.foldl (Scene.intersectStepUnnarrowed ray minT maxT)
            ⟨maxT, Vec3.splat 0, Vec3.splat 0, Vec3.splat 0⟩).dist < maxT
      then scene.spheres.foldl (Scene.intersectStepUnnarrowed ray minT maxT)
            ⟨maxT, Vec3.splat 0, Vec3.splat 0, Vec3.splat 0⟩
      else noIntersection := rfl

/-- If no sphere reports a valid hit, the scene query returns
`noIntersection()`. -/
theorem Scene.intersect_of_no_hit (scene : Scene) (ray : Ray) (minT maxT : EReal)
    (h : ∀ s ∈ scene.spheres, ¬ (s.intersect ray minT maxT).valid) :
    scene.intersect ray minT maxT = noIntersection := by
  rw [Scene.intersect_eq_unnarrowed, Scene.intersectUnnarrowed_eq_ite]
  rw [Scene.foldl_unnarrowed_keep ray minT maxT scene.spheres _ fun s hs =>
    le_of_not_lt fun hlt =>
      h s hs ((Sphere.intersect_dist_lt_iff s ray minT maxT).mp hlt)]
  rw [if_neg (lt_irrefl maxT)]

/-- If some sphere reports a valid hit, the scene result is one of the sphere
hits, is valid, and has minimal distance among all of them. -/
theorem Scene.intersect_of_hit (scene : Scene) (ray : Ray) (minT maxT : EReal)
    (h : ∃ s ∈ scene.spheres, (s.intersect ray minT maxT).valid) :
    (∃ s ∈ scene.spheres,
        scene.intersect ray minT maxT = s.intersect ray minT maxT ∧
        (s.intersect ray minT maxT).valid) ∧
    ∀ s ∈ scene.spheres,
      (scene.intersect ray minT maxT).dist ≤ (s.intersect ray minT maxT).dist := by
  obtain ⟨s0, hs0, hv0⟩ := h
  have hlt0 : (s0.intersect ray minT maxT).dist < maxT :=
    (Sphere.intersect_dist_lt_iff s0 ray minT maxT).mpr hv0
  have hFle := Scene.foldl_unnarrowed_dist_le ray minT maxT scene.spheres
    ⟨maxT, Vec3.splat 0, Vec3.splat 0, Vec3.splat 0⟩ s0 hs0
  have hFlt : (scene.spheres.foldl (Scene.intersectStepUnnarrowed ray minT maxT)
      ⟨maxT, Vec3.splat 0, Vec3.splat 0, Vec3.splat 0⟩).dist < maxT :=
    lt_of_le_of_lt hFle hlt0
  have heq : scene.intersect ray minT maxT =
      scene.spheres.foldl (Scene.intersectStepUnnarrowed ray minT maxT)
        ⟨maxT, Vec3.splat 0, Vec3.splat 0, Vec3.splat 0⟩ := by
    rw [Scene.intersect_eq_unnarrowed, Scene.intersectUnnarrowed_eq_ite, if_pos hFlt]
  constructor
  · rcases Scene.foldl_unnarrowed_mem ray minT maxT scene.spheres
      ⟨maxT, Vec3.splat 0, Vec3.splat 0, Vec3.splat 0⟩ with hinit | ⟨s, hs, hfold⟩
    · rw [hinit] at hFlt
      exact absurd hFlt (lt_irrefl maxT)
    · have hvs : (s.intersect ray minT maxT).dist < maxT := by
        rw [← hfold]
        exact hFlt
      exact ⟨s, hs, heq.trans hfold,
        (Sphere.intersect_dist_lt_iff s ray minT maxT).mp hvs⟩
  · intro s hs
    rw [heq]
    exact Scene.foldl_unnarrowed_dist_le ray minT maxT scene.spheres _ s hs

/-- The first sphere of the collection achieving the minimal hit distance
wins the scan: all spheres before it hit strictly farther, all spheres after
it hit at least as far (equality allowed), so the scan keeps its record. -/
theorem Scene.intersect_first_min (scene : Scene) (ray : Ray) (minT maxT : EReal)
    (pre post : List Sphere) (s1 : Sphere) (t : ℝ)
    (hsp : scene.spheres = pre ++ s1 :: post)
    (h1 : (s1.intersect ray minT maxT).dist = (t : EReal))
    (hmax : (t : EReal) < maxT)
    (hpre : ∀ s ∈ pre, (t : EReal) < (s.intersect ray minT maxT).dist)
    (hpost : ∀ s ∈ post, (t : EReal) ≤ (s.intersect ray minT maxT).dist) :
    scene.intersect ray minT maxT = s1.intersect ray minT maxT := by
  rw [Scene.intersect_eq_unnarrowed, Scene.intersectUnnarrowed_eq_ite, hsp]
  rw [List.foldl_append]
  have hFpre : (t : EReal) <
      (pre.foldl (Scene.intersectStepUnnarrowed ray minT maxT)
        ⟨maxT, Vec3.splat 0, Vec3.splat 0, Vec3.splat 0⟩).dist := by
    rcases Scene.foldl_unnarrowed_mem ray minT maxT pre
      ⟨maxT, Vec3.splat 0, Vec3.splat 0, Vec3.splat 0⟩ with he | ⟨s, hs, he⟩
    · rw [he]
      exact hmax
    · rw [he]
      exact hpre s hs
  have hstep : Scene.intersectStepUnnarrowed ray minT maxT
      (pre.foldl (Scene.intersectStepUnnarrowed ray minT maxT)
        ⟨maxT, Vec3.splat 0, Vec3.splat 0, Vec3.splat 0⟩) s1 =
      s1.intersect ray minT maxT := by
    simp only [Scene.intersectStepUnnarrowed]
    rw [if_pos (by rw [h1]; exact hFpre)]
  rw [List.foldl_cons, hstep,
    Scene.foldl_unnarrowed_keep ray minT maxT post _ (by rw [h1]; exact hpost),
    if_pos (by rw [h1]; exact hmax)]

/-- With an empty query range (`maxT ≤ minT`) a sphere cannot be hit. -/
theorem Sphere.intersect_of_empty_range (s : Sphere) (ray : Ray) (minT maxT : EReal)
    (h : maxT ≤ minT) : s.intersect ray minT maxT = noIntersection := by
  have hno : ∀ t : ℝ, ¬ ((t : EReal) > minT ∧ (t : EReal) < maxT) := by
    intro t ht
    exact absurd (lt_trans ht.1 ht.2) (not_lt.mpr h)
  rcases Sphere.intersect_cases s ray minT maxT with ⟨he, _⟩ | ⟨_, _, hc⟩ |
    ⟨_, _, _, hc⟩
  · exact he
  · exact absurd hc (hno _)
  · exact absurd hc (hno _)

/-- With an empty query range the boolean any-hit test is false as well. -/
theorem Sphere.intersectAny_of_empty_range (s : Sphere) (ray : Ray) (minT maxT : EReal)
    (h : maxT ≤ minT) : s.intersectAny ray minT maxT = false := by
  have hno : ∀ t : ℝ, ¬ ((t : EReal) > minT ∧ (t : EReal) < maxT) := by
    intro t ht
    exact absurd (lt_trans ht.1 ht.2) (not_lt.mpr h)
  simp [Sphere.intersectAny, hno (s.tNear ray), hno (s.tFar ray)]

theorem Scene.intersect_empty_range (scene : Scene) (ray : Ray) (minT maxT : EReal)
    (h : maxT ≤ minT) : scene.intersect ray minT maxT = noIntersection := by
  apply Scene.intersect_of_no_hit
  intro s hs hv
  rw [Sphere.intersect_of_empty_range s ray minT maxT h] at hv
  exact noIntersection_not_valid hv

theorem Scene.intersectAny_empty_range (scene : Scene) (ray : Ray)
    (minT maxT : EReal) (h : maxT ≤ minT) :
    scene.intersectAny ray minT maxT = false := by
  simp only [Scene.intersectAny, List.any_eq_false]
  intro s _
  simp [Sphere.intersectAny_of_empty_range s ray minT maxT h]

/-- Scene query over a single sphere. -/
theorem Scene.intersect_singleton (s : Sphere) (amb : AmbientLight)
    (pls : List PointLight) (dls : List DirectionalLight) (cls : List ConeLight)
    (cyls : List CylinderLight) (ray : Ray) (minT maxT : EReal) :
    Scene.intersect ⟨[s], amb, pls, dls, cls, cyls⟩ ray minT maxT =
      if (s.intersect ray minT maxT).dist < maxT then s.intersect ray minT maxT
      else noIntersection := by
  rw [Scene.intersect_eq_unnarrowed, Scene.intersectUnnarrowed_eq_ite]
  simp only [List.foldl_cons, List.foldl_nil, Scene.intersectStepUnnarrowed,
    Intersection.mk_dist]
  split_ifs with h1 h2
  · rfl
  · exact absurd h2 (lt_irrefl maxT)
  · rfl

/-- Folding `color += f l` over a list accumulates the sum of the mapped
contributions. -/
theorem foldl_add_map_sum {α : Type} (f : α → Vec3) :
    ∀ (l : List α) (c : Vec3),
      l.foldl (fun acc x => acc + f x) c = c + (l.map f).sum := by
  intro l
  induction l with
  | nil => intro c; simp
  | cons a l ih =>
    intro c
    simp only [List.foldl_cons, List.map_cons, List.sum_cons]
    rw [ih, add_assoc]

theorem transparencyLoop_zero (scene : Scene) (r : Ray) (c : Vec3) :
    transparencyLoop scene 0 r c = Vec3.splat 0 := rfl

theorem ereal_zero_lt_coe {x : ℝ} (h : 0 < x) : (0 : EReal) < (x : EReal) := by
  rw [← EReal.coe_zero, EReal.coe_lt_coe_iff]
  exact h

theorem ereal_not_zero_lt_coe {x : ℝ} (h : x ≤ 0) :
    ¬ ((0 : EReal) < (x : EReal)) := by
  rw [← EReal.coe_zero, EReal.coe_lt_coe_iff]
  exact not_lt.mpr h

theorem transparencyLoop_succ (scene : Scene) (n : Nat) (r : Ray) (c : Vec3) :
    transparencyLoop scene (n + 1) r c =
      if (scene.intersect r 0 ⊤).valid then
        transparencyLoop scene n
          ⟨(scene.intersect r 0 ⊤).pos - EPSILON *
            (if Vec3.dot r.d (scene.intersect r 0 ⊤).normal < 0 then
              (scene.intersect r 0 ⊤).normal
            else -(scene.intersect r 0 ⊤).normal), r.d⟩
          (c * (scene.intersect r 0 ⊤).color)
      else c := rfl

/-! ### Concrete evaluations of the sphere queries used by the test scenes -/

theorem sphereAt5_hit_probe (a : Vec3) :
    (sphereAt5 a).intersect probeRay 0 ⊤ =
      ⟨((4 : ℝ) : EReal), ⟨0, 0, 4⟩, ⟨0, 0, -1⟩, a⟩ := by
  have hb : (sphereAt5 a).bCoef probeRay = 5 := by
    simp only [Sphere.bCoef, sphereAt5, probeRay, Vec3.dot_def, Vec3.sub_x,
      Vec3.sub_y, Vec3.sub_z, Vec3.mk_x, Vec3.mk_y, Vec3.mk_z]
    norm_num
  have hc : (sphereAt5 a).cCoef probeRay = 24 := by
    simp only [Sphere.cCoef, sphereAt5, probeRay, Vec3.dot_def, Vec3.sub_x,
      Vec3.sub_y, Vec3.sub_z, Vec3.mk_x, Vec3.mk_y, Vec3.mk_z]
    norm_num
  have hd : (sphereAt5 a).disc probeRay = 1 := by
    unfold Sphere.disc
    rw [hb, hc]
    norm_num
  have htN : (sphereAt5 a).tNear probeRay = 4 := by
    unfold Sphere.tNear
    rw [hb, hd, Real.sqrt_one]
    norm_num
  have hpos : probeRay.at 4 = (⟨0, 0, 4⟩ : Vec3) := by
    ext <;> norm_num [Ray.at, probeRay]
  have hnorm : (sphereAt5 a).normal (⟨0, 0, 4⟩ : Vec3) = ⟨0, 0, -1⟩ := by
    ext <;> norm_num [Sphere.normal, sphereAt5]
  rw [Sphere.intersect_of_tNear (sphereAt5 a) probeRay 0 ⊤ (by rw [hd]; norm_num)
    ⟨by rw [htN]; exact ereal_zero_lt_coe (by norm_num),
     by rw [htN]; exact EReal.coe_lt_top 4⟩]
  unfold Sphere.hitAt
  rw [htN, hpos, hnorm]
  rfl

theorem sphereAt10_hit_probe (a : Vec3) :
    (sphereAt10 a).intersect probeRay 0 ⊤ =
      ⟨((9 : ℝ) : EReal), ⟨0, 0, 9⟩, ⟨0, 0, -1⟩, a⟩ := by
  have hb : (sphereAt10 a).bCoef probeRay = 10 := by
    simp only [Sphere.bCoef, sphereAt10, probeRay, Vec3.dot_def, Vec3.sub_x,
      Vec3.sub_y, Vec3.sub_z, Vec3.mk_x, Vec3.mk_y, Vec3.mk_z]
    norm_num
  have hc : (sphereAt10 a).cCoef probeRay = 99 := by
    simp only [Sphere.cCoef, sphereAt10, probeRay, Vec3.dot_def, Vec3.sub_x,
      Vec3.sub_y, Vec3.sub_z, Vec3.mk_x, Vec3.mk_y, Vec3.mk_z]
    norm_num
  have hd : (sphereAt10 a).disc probeRay = 1 := by
    unfold Sphere.disc
    rw [hb, hc]
    norm_num
  have htN : (sphereAt10 a).tNear probeRay = 9 := by
    unfold Sphere.tNear
    rw [hb, hd, Real.sqrt_one]
    norm_num
  have hpos : probeRay.at 9 = (⟨0, 0, 9⟩ : Vec3) := by
    ext <;> norm_num [Ray.at, probeRay]
  have hnorm : (sphereAt10 a).normal (⟨0, 0, 9⟩ : Vec3) = ⟨0, 0, -1⟩ := by
    ext <;> norm_num [Sphere.normal, sphereAt10]
  rw [Sphere.intersect_of_tNear (sphereAt10 a) probeRay 0 ⊤ (by rw [hd]; norm_num)
    ⟨by rw [htN]; exact ereal_zero_lt_coe (by norm_num),
     by rw [htN]; exact EReal.coe_lt_top 9⟩]
  unfold Sphere.hitAt
  rw [htN, hpos, hnorm]
  rfl

theorem sphereAt5_hit_inside (a : Vec3) :
    (sphereAt5 a).intersect ⟨⟨0, 0, 4.0001⟩, ⟨0, 0, 1⟩⟩ 0 ⊤ =
      ⟨((1.9999 : ℝ) : EReal), ⟨0, 0, 6⟩, ⟨0, 0, 1⟩, a⟩ := by
  have hb : (sphereAt5 a).bCoef ⟨⟨0, 0, 4.0001⟩, ⟨0, 0, 1⟩⟩ = 0.9999 := by
    simp only [Sphere.bCoef, sphereAt5, Vec3.dot_def, Vec3.sub_x, Vec3.sub_y,
      Vec3.sub_z, Vec3.mk_x, Vec3.mk_y, Vec3.mk_z]
    norm_num
  have hc : (sphereAt5 a).cCoef ⟨⟨0, 0, 4.0001⟩, ⟨0, 0, 1⟩⟩ =
      0.9999 * 0.9999 - 1 := by
    simp only [Sphere.cCoef, sphereAt5, Vec3.dot_def, Vec3.sub_x,
      Vec3.sub_y, Vec3.sub_z, Vec3.mk_x, Vec3.mk_y, Vec3.mk_z]
    norm_num
  have hd : (sphereAt5 a).disc ⟨⟨0, 0, 4.0001⟩, ⟨0, 0, 1⟩⟩ = 1 := by
    unfold Sphere.disc
    rw [hb, hc]
    norm_num
  have htN : (sphereAt5 a).tNear ⟨⟨0, 0, 4.0001⟩, ⟨0, 0, 1⟩⟩ = -0.0001 := by
    unfold Sphere.tNear
    rw [hb, hd, Real.sqrt_one]
    norm_num
  have htF : (sphereAt5 a).tFar ⟨⟨0, 0, 4.0001⟩, ⟨0, 0, 1⟩⟩ = 1.9999 := by
    unfold Sphere.tFar
    rw [hb, hd, Real.sqrt_one]
    norm_num
  have hpos : Ray.at ⟨⟨0, 0, 4.0001⟩, ⟨0, 0, 1⟩⟩ 1.9999 = (⟨0, 0, 6⟩ : Vec3) := by
    ext <;> norm_num [Ray.at]
  have hnorm : (sphereAt5 a).normal (⟨0, 0, 6⟩ : Vec3) = ⟨0, 0, 1⟩ := by
    ext <;> norm_num [Sphere.normal, sphereAt5]
  rw [Sphere.intersect_of_tFar (sphereAt5 a) ⟨⟨0, 0, 4.0001⟩, ⟨0, 0, 1⟩⟩ 0 ⊤
    (by rw [hd]; norm_num)
    (by
      rw [htN]
      intro hc
      exact ereal_not_zero_lt_coe (by norm_num) hc.1)
    ⟨by rw [htF]; exact ereal_zero_lt_coe (by norm_num),
     by rw [htF]; exact EReal.coe_lt_top _⟩]
  unfold Sphere.hitAt
  rw [htF, hpos, hnorm]
  rfl

theorem sphereAt5_miss_beyond (a : Vec3) :
    (sphereAt5 a).intersect ⟨⟨0, 0, 6.0001⟩, ⟨0, 0, 1⟩⟩ 0 ⊤ = noIntersection := by
  have hb : (sphereAt5 a).bCoef ⟨⟨0, 0, 6.0001⟩, ⟨0, 0, 1⟩⟩ = -1.0001 := by
    simp only [Sphere.bCoef, sphereAt5, Vec3.dot_def, Vec3.sub_x, Vec3.sub_y,
      Vec3.sub_z, Vec3.mk_x, Vec3.mk_y, Vec3.mk_z]
    norm_num
  have hc : (sphereAt5 a).cCoef ⟨⟨0, 0, 6.0001⟩, ⟨0, 0, 1⟩⟩ =
      1.0001 * 1.0001 - 1 := by
    simp only [Sphere.cCoef, sphereAt5, Vec3.dot_def, Vec3.sub_x,
      Vec3.sub_y, Vec3.sub_z, Vec3.mk_x, Vec3.mk_y, Vec3.mk_z]
    norm_num
  have hd : (sphereAt5 a).disc ⟨⟨0, 0, 6.0001⟩, ⟨0, 0, 1⟩⟩ = 1 := by
    unfold Sphere.disc
    rw [hb, hc]
    norm_num
  have htN : (sphereAt5 a).tNear ⟨⟨0, 0, 6.0001⟩, ⟨0, 0, 1⟩⟩ = -2.0001 := by
    unfold Sphere.tNear
    rw [hb, hd, Real.sqrt_one]
    norm_num
  have htF : (sphereAt5 a).tFar ⟨⟨0, 0, 6.0001⟩, ⟨0, 0, 1⟩⟩ = -0.0001 := by
    unfold Sphere.tFar
    rw [hb, hd, Real.sqrt_one]
    norm_num
  exact Sphere.intersect_of_miss (sphereAt5 a) ⟨⟨0, 0, 6.0001⟩, ⟨0, 0, 1⟩⟩ 0 ⊤
    (by rw [hd]; norm_num)
    (by
      rw [htN]
      intro hc
      exact ereal_not_zero_lt_coe (by norm_num) hc.1)
    (by
      rw [htF]
      intro hc
      exact ereal_not_zero_lt_coe (by norm_num) hc.1)

theorem sphereAt5_back_tRoots (a : Vec3) :
    (sphereAt5 a).tNear ⟨⟨0, 0, 3.9999⟩, ⟨0, 0, -1⟩⟩ = -2.0001 ∧
    (sphereAt5 a).tFar ⟨⟨0, 0, 3.9999⟩, ⟨0, 0, -1⟩⟩ = -0.0001 := by
  have hb : (sphereAt5 a).bCoef ⟨⟨0, 0, 3.9999⟩, ⟨0, 0, -1⟩⟩ = -1.0001 := by
    simp only [Sphere.bCoef, sphereAt5, Vec3.dot_def, Vec3.sub_x, Vec3.sub_y,
      Vec3.sub_z, Vec3.mk_x, Vec3.mk_y, Vec3.mk_z]
    norm_num
  have hc : (sphereAt5 a).cCoef ⟨⟨0, 0, 3.9999⟩, ⟨0, 0, -1⟩⟩ =
      1.0001 * 1.0001 - 1 := by
    simp only [Sphere.cCoef, sphereAt5, Vec3.dot_def, Vec3.sub_x,
      Vec3.sub_y, Vec3.sub_z, Vec3.mk_x, Vec3.mk_y, Vec3.mk_z]
    norm_num
  have hd : (sphereAt5 a).disc ⟨⟨0, 0, 3.9999⟩, ⟨0, 0, -1⟩⟩ = 1 := by
    unfold Sphere.disc
    rw [hb, hc]
    norm_num
  constructor
  · unfold Sphere.tNear
    rw [hb, hd, Real.sqrt_one]
    norm_num
  · unfold Sphere.tFar
    rw [hb, hd, Real.sqrt_one]
    norm_num

/-- The shadow probe from the offset point `(0,0,3.9999)` back toward the
world origin hits nothing: both roots are negative. -/
theorem sphereAt5_back_any_false (a : Vec3) (maxT : EReal) :
    (sphereAt5 a).intersectAny ⟨⟨0, 0, 3.9999⟩, ⟨0, 0, -1⟩⟩ 0 maxT = false := by
  obtain ⟨htN, htF⟩ := sphereAt5_back_tRoots a
  have h1 : ¬ (((sphereAt5 a).tNear ⟨⟨0, 0, 3.9999⟩, ⟨0, 0, -1⟩⟩ : EReal) > 0 ∧
      ((sphereAt5 a).tNear ⟨⟨0, 0, 3.9999⟩, ⟨0, 0, -1⟩⟩ : EReal) < maxT) := by
    rw [htN]
    intro hc
    exact ereal_not_zero_lt_coe (by norm_num) hc.1
  have h2 : ¬ (((sphereAt5 a).tFar ⟨⟨0, 0, 3.9999⟩, ⟨0, 0, -1⟩⟩ : EReal) > 0 ∧
      ((sphereAt5 a).tFar ⟨⟨0, 0, 3.9999⟩, ⟨0, 0, -1⟩⟩ : EReal) < maxT) := by
    rw [htF]
    intro hc
    exact ereal_not_zero_lt_coe (by norm_num) hc.1
  unfold Sphere.intersectAny
  rw [decide_eq_false h1, decide_eq_false h2]
  simp

/-! ### Scene-level evaluations on the test scenes -/

@[simp] theorem Ray.mk_o (o d : Vec3) : (Ray.mk o d).o = o := rfl

@[simp] theorem Ray.mk_d (o d : Vec3) : (Ray.mk o d).d = d := rfl

/-- The nearest-hit query only reads the sphere collection. -/
theorem Scene.intersect_congr_spheres (s1 s2 : Scene) (h : s1.spheres = s2.spheres)
    (ray : Ray) (minT maxT : EReal) :
    s1.intersect ray minT maxT = s2.intersect ray minT maxT := by
  unfold Scene.intersect
  rw [h]

/-- The any-hit query only reads the sphere collection. -/
theorem Scene.intersectAny_congr_spheres (s1 s2 : Scene) (h : s1.spheres = s2.spheres)
    (ray : Ray) (minT maxT : EReal) :
    s1.intersectAny ray minT maxT = s2.intersectAny ray minT maxT := by
  unfold Scene.intersectAny
  rw [h]

theorem Scene.intersectAny_singleton (s : Sphere) (amb : AmbientLight)
    (pls : List PointLight) (dls : List DirectionalLight) (cls : List ConeLight)
    (cyls : List CylinderLight) (ray : Ray) (minT maxT : EReal) :
    Scene.intersectAny ⟨[s], amb, pls, dls, cls, cyls⟩ ray minT maxT =
      s.intersectAny ray minT maxT := by
  simp [Scene.intersectAny]

theorem sceneSingle_probe (a : Vec3) :
    Scene.intersect (sceneSingle a) probeRay 0 ⊤ =
      ⟨((4 : ℝ) : EReal), ⟨0, 0, 4⟩, ⟨0, 0, -1⟩, a⟩ := by
  have h := Scene.intersect_singleton (sphereAt5 a) ⟨Vec3.splat 0⟩ [] [] [] []
    probeRay 0 ⊤
  rw [sphereAt5_hit_probe a] at h
  simp only [Intersection.mk_dist] at h
  rw [if_pos (EReal.coe_lt_top 4)] at h
  exact h

theorem sceneSingle_inside (a : Vec3) :
    Scene.intersect (sceneSingle a) ⟨⟨0, 0, 4.0001⟩, ⟨0, 0, 1⟩⟩ 0 ⊤ =
      ⟨((1.9999 : ℝ) : EReal), ⟨0, 0, 6⟩, ⟨0, 0, 1⟩, a⟩ := by
  have h := Scene.intersect_singleton (sphereAt5 a) ⟨Vec3.splat 0⟩ [] [] [] []
    ⟨⟨0, 0, 4.0001⟩, ⟨0, 0, 1⟩⟩ 0 ⊤
  rw [sphereAt5_hit_inside a] at h
  simp only [Intersection.mk_dist] at h
  rw [if_pos (EReal.coe_lt_top _)] at h
  exact h

theorem sceneSingle_beyond (a : Vec3) :
    Scene.intersect (sceneSingle a) ⟨⟨0, 0, 6.0001⟩, ⟨0, 0, 1⟩⟩ 0 ⊤ =
      noIntersection := by
  have h := Scene.intersect_singleton (sphereAt5 a) ⟨Vec3.splat 0⟩ [] [] [] []
    ⟨⟨0, 0, 6.0001⟩, ⟨0, 0, 1⟩⟩ 0 ⊤
  rw [sphereAt5_miss_beyond a] at h
  rw [noIntersection_dist] at h
  rw [if_neg (lt_irrefl (⊤ : EReal))] at h
  exact h

/-- Third transparency segment: the continuation ray from behind the sphere
escapes, returning the accumulated color. -/
theorem transparencyLoop_escape (a : Vec3) (n : Nat) (c : Vec3) :
    transparencyLoop (sceneSingle a) (n + 1) ⟨⟨0, 0, 6.0001⟩, ⟨0, 0, 1⟩⟩ c = c := by
  rw [transparencyLoop_succ, sceneSingle_beyond a]
  rw [if_neg noIntersection_not_valid]

/-- Second transparency segment: exit the sphere at `t = 1.9999` and continue
from `(0,0,6.0001)`. -/
theorem transparencyLoop_exit (a : Vec3) (n : Nat) (c : Vec3) :
    transparencyLoop (sceneSingle a) (n + 2) ⟨⟨0, 0, 4.0001⟩, ⟨0, 0, 1⟩⟩ c =
      c * a := by
  rw [transparencyLoop_succ, sceneSingle_inside a]
  rw [if_pos (show (⟨((1.9999 : ℝ) : EReal), ⟨0, 0, 6⟩, ⟨0, 0, 1⟩, a⟩ :
    Intersection).valid from EReal.coe_lt_top _)]
  simp only [Intersection.mk_pos, Intersection.mk_normal, Intersection.mk_color,
    Ray.mk_o, Ray.mk_d]
  rw [if_neg (show ¬ (Vec3.dot (⟨0, 0, 1⟩ : Vec3) (⟨0, 0, 1⟩ : Vec3) < 0) by
    norm_num [Vec3.dot_def])]
  rw [show (⟨0, 0, 6⟩ : Vec3) - EPSILON * -(⟨0, 0, 1⟩ : Vec3) =
    (⟨0, 0, 6.0001⟩ : Vec3) from by ext <;> norm_num [EPSILON]]
  exact transparencyLoop_escape a n (c * a)

/-- First transparency segment: enter the sphere at `t = 4` and continue from
`(0,0,4.0001)`. -/
theorem transparencyLoop_enter (a : Vec3) (n : Nat) (c : Vec3) :
    transparencyLoop (sceneSingle a) (n + 3) probeRay c = c * a * a := by
  rw [transparencyLoop_succ, sceneSingle_probe a]
  rw [if_pos (show (⟨((4 : ℝ) : EReal), ⟨0, 0, 4⟩, ⟨0, 0, -1⟩, a⟩ :
    Intersection).valid from EReal.coe_lt_top _)]
  simp only [Intersection.mk_pos, Intersection.mk_normal, Intersection.mk_color,
    Ray.mk_o, Ray.mk_d]
  rw [if_pos (show Vec3.dot probeRay.d (⟨0, 0, -1⟩ : Vec3) < 0 by
    norm_num [probeRay, Vec3.dot_def])]
  rw [show (⟨0, 0, 4⟩ : Vec3) - EPSILON * (⟨0, 0, -1⟩ : Vec3) =
    (⟨0, 0, 4.0001⟩ : Vec3) from by ext <;> norm_num [EPSILON]]
  have h := transparencyLoop_exit a n (c * a)
  exact h

/-! ### Light sample evaluations for the diffuse integrators -/

theorem pointSample_at4 :
    PointLight.sampleRadiance ⟨Vec3.splat 16, Vec3.splat 0⟩ ⟨0, 0, 4⟩ =
      ⟨Vec3.splat 1, ⟨0, 0, -1⟩, ((4 : ℝ) : EReal)⟩ := by
  have hlen : Vec3.length (Vec3.splat 0 - ⟨0, 0, 4⟩) = 4 := by
    unfold Vec3.length Vec3.lengthSquared
    rw [show Vec3.dot (Vec3.splat 0 - ⟨0, 0, 4⟩) (Vec3.splat 0 - ⟨0, 0, 4⟩) =
      16 by norm_num [Vec3.dot_def]]
    rw [show (16 : ℝ) = 4 ^ 2 by norm_num, Real.sqrt_sq (by norm_num : (0 : ℝ) ≤ 4)]
  simp only [PointLight.sampleRadiance, hlen]
  simp only [LightSample.mk.injEq]
  refine ⟨?_, ?_, trivial⟩ <;> ext <;> norm_num

theorem pointSample_at39999 :
    PointLight.sampleRadiance ⟨Vec3.splat 16, Vec3.splat 0⟩ ⟨0, 0, 3.9999⟩ =
      ⟨Vec3.splat (16 / 15.99920001), ⟨0, 0, -1⟩, ((3.9999 : ℝ) : EReal)⟩ := by
  have hlen : Vec3.length (Vec3.splat 0 - ⟨0, 0, 3.9999⟩) = 3.9999 := by
    unfold Vec3.length Vec3.lengthSquared
    rw [show Vec3.dot (Vec3.splat 0 - ⟨0, 0, 3.9999⟩)
        (Vec3.splat 0 - ⟨0, 0, 3.9999⟩) = 3.9999 ^ 2 by norm_num [Vec3.dot_def]]
    rw [Real.sqrt_sq (by norm_num : (0 : ℝ) ≤ 3.9999)]
  simp only [PointLight.sampleRadiance, hlen]
  simp only [LightSample.mk.injEq]
  refine ⟨?_, ?_, trivial⟩ <;> ext <;> norm_num

theorem fmax_cos_back : fmax 0 (Vec3.dot (⟨0, 0, -1⟩ : Vec3) ⟨0, 0, -1⟩) = 1 := by
  rw [show Vec3.dot (⟨0, 0, -1⟩ : Vec3) ⟨0, 0, -1⟩ = 1 by norm_num [Vec3.dot_def]]
  unfold fmax
  rw [if_neg (by norm_num : ¬ ((0 : ℝ) ≥ 1))]

theorem scenePoint_probe :
    Scene.intersect scenePoint probeRay 0 ⊤ =
      ⟨((4 : ℝ) : EReal), ⟨0, 0, 4⟩, ⟨0, 0, -1⟩, Vec3.splat 1⟩ := by
  rw [Scene.intersect_congr_spheres scenePoint (sceneSingle (Vec3.splat 1)) rfl]
  exact sceneSingle_probe (Vec3.splat 1)

theorem sceneDir_probe :
    Scene.intersect sceneDir probeRay 0 ⊤ =
      ⟨((4 : ℝ) : EReal), ⟨0, 0, 4⟩, ⟨0, 0, -1⟩, Vec3.splat 1⟩ := by
  rw [Scene.intersect_congr_spheres sceneDir (sceneSingle (Vec3.splat 1)) rfl]
  exact sceneSingle_probe (Vec3.splat 1)

theorem scenePoint_shadow_false (maxT : EReal) :
    Scene.intersectAny scenePoint ⟨⟨0, 0, 3.9999⟩, ⟨0, 0, -1⟩⟩ 0 maxT = false := by
  have h := Scene.intersectAny_singleton (sphereAt5 (Vec3.splat 1)) ⟨Vec3.splat 0⟩
    [⟨Vec3.splat 16, Vec3.splat 0⟩] [] [] [] ⟨⟨0, 0, 3.9999⟩, ⟨0, 0, -1⟩⟩ 0 maxT
  exact h.trans (sphereAt5_back_any_false (Vec3.splat 1) maxT)

theorem sceneDir_shadow_false (maxT : EReal) :
    Scene.intersectAny sceneDir ⟨⟨0, 0, 3.9999⟩, ⟨0, 0, -1⟩⟩ 0 maxT = false := by
  have h := Scene.intersectAny_singleton (sphereAt5 (Vec3.splat 1)) ⟨Vec3.splat 0⟩
    [] [⟨Vec3.splat 1, ⟨0, 0, 1⟩⟩] [] [] ⟨⟨0, 0, 3.9999⟩, ⟨0, 0, -1⟩⟩ 0 maxT
  exact h.trans (sphereAt5_back_any_false (Vec3.splat 1) maxT)

theorem sceneDir_shadingPoint :
    DiffuseDirectIlluminationIntegrator.shadingPoint sceneDir probeRay =
      ⟨0, 0, 3.9999⟩ := by
  simp only [DiffuseDirectIlluminationIntegrator.shadingPoint, sceneDir_probe,
    Intersection.mk_pos, Intersection.mk_normal]
  rw [if_pos (show Vec3.dot probeRay.d (⟨0, 0, -1⟩ : Vec3) < 0 by
    norm_num [probeRay, Vec3.dot_def])]
  ext <;> norm_num [EPSILON]

theorem scenePoint_ambient : scenePoint.ambientLight = ⟨Vec3.splat 0⟩ := rfl

theorem scenePoint_pls :
    scenePoint.pointLights = [⟨Vec3.splat 16, Vec3.splat 0⟩] := rfl

theorem scenePoint_dls : scenePoint.directionalLights = [] := rfl

theorem scenePoint_cls : scenePoint.coneLights = [] := rfl

theorem scenePoint_cyls : scenePoint.cylinderLights = [] := rfl

/-- The local diffuse integrator on the point-light scene: the light is
sampled at the hit point `(0,0,4)`, at distance 4, so the inverse-square
falloff is exactly `16/16 = 1`. -/
theorem diffuseLocal_scenePoint :
    DiffuseLocalDirectIlluminationIntegrator.radiance scenePoint probeRay =
      Vec3.splat INV_PI := by
  simp only [DiffuseLocalDirectIlluminationIntegrator.radiance, scenePoint_probe]
  rw [if_pos (show (⟨((4 : ℝ) : EReal), ⟨0, 0, 4⟩, ⟨0, 0, -1⟩, Vec3.splat 1⟩ :
    Intersection).valid from EReal.coe_lt_top 4)]
  rw [if_pos (show Vec3.dot probeRay.d (⟨0, 0, -1⟩ : Vec3) < 0 by
    norm_num [probeRay, Vec3.dot_def])]
  simp only [scenePoint_ambient, scenePoint_pls, scenePoint_dls, scenePoint_cls,
    scenePoint_cyls, AmbientLight.sampleRadiance, List.foldl_cons, List.foldl_nil]
  rw [pointSample_at4]
  simp only [diffuseLocalContribution]
  rw [fmax_cos_back]
  ext <;> simp

/-- The shadowed diffuse integrator on the point-light scene: the light is
sampled at the offset point `(0,0,3.9999)`, so the inverse-square falloff is
`16/15.99920001`, and the shadow probe toward the light finds nothing. -/
theorem diffuseDirect_scenePoint :
    DiffuseDirectIlluminationIntegrator.radiance scenePoint probeRay =
      Vec3.splat (INV_PI * (16 / 15.99920001)) := by
  simp only [DiffuseDirectIlluminationIntegrator.radiance, scenePoint_probe]
  rw [if_pos (show (⟨((4 : ℝ) : EReal), ⟨0, 0, 4⟩, ⟨0, 0, -1⟩, Vec3.splat 1⟩ :
    Intersection).valid from EReal.coe_lt_top 4)]
  rw [if_pos (show Vec3.dot probeRay.d (⟨0, 0, -1⟩ : Vec3) < 0 by
    norm_num [probeRay, Vec3.dot_def])]
  rw [show (⟨0, 0, 4⟩ : Vec3) + EPSILON * (⟨0, 0, -1⟩ : Vec3) =
    (⟨0, 0, 3.9999⟩ : Vec3) from by ext <;> norm_num [EPSILON]]
  simp only [scenePoint_ambient, scenePoint_pls, scenePoint_dls, scenePoint_cls,
    scenePoint_cyls, AmbientLight.sampleRadiance, List.foldl_cons, List.foldl_nil]
  rw [pointSample_at39999]
  simp only [diffuseDirectContribution]
  rw [scenePoint_shadow_false ((3.9999 : ℝ) : EReal)]
  rw [if_neg Bool.false_ne_true]
  rw [fmax_cos_back]
  ext <;> simp

/-! ### Unit length of light sample directions -/

theorem Vec3.eq_of_sub_eq_splat_zero {a b : Vec3} (h : a - b = Vec3.splat 0) :
    a = b := by
  ext
  · have hx := congrArg Vec3.x h
    simp only [Vec3.sub_x, Vec3.splat_x] at hx
    linarith
  · have hy := congrArg Vec3.y h
    simp only [Vec3.sub_y, Vec3.splat_y] at hy
    linarith
  · have hz := congrArg Vec3.z h
    simp only [Vec3.sub_z, Vec3.splat_z] at hz
    linarith

theorem Vec3.dot_divScalar_self (v : Vec3) (s : ℝ) :
    Vec3.dot (v / s) (v / s) = Vec3.dot v v * ((1 / s) * (1 / s)) := by
  simp only [Vec3.dot_def, Vec3.divScalar_x, Vec3.divScalar_y, Vec3.divScalar_z]
  ring

/-- A point light's sample direction is unit length whenever the shaded point
is distinct from the light's position. -/
theorem pointLight_direction_unit (l : PointLight) (pos : Vec3)
    (h : pos ≠ l.origin) :
    Vec3.length (l.sampleRadiance pos).direction = 1 := by
  have hvne : l.origin - pos ≠ Vec3.splat 0 := fun h0 =>
    h (Vec3.eq_of_sub_eq_splat_zero h0).symm
  have hdotpos : 0 < Vec3.dot (l.origin - pos) (l.origin - pos) := by
    rcases lt_or_eq_of_le (Vec3.dot_self_nonneg (l.origin - pos)) with hlt | heq
    · exact hlt
    · exact absurd (Vec3.eq_splat_zero_of_dot_self _ heq.symm) hvne
  have hlenpos : 0 < Vec3.length (l.origin - pos) := by
    unfold Vec3.length Vec3.lengthSquared
    exact Real.sqrt_pos.mpr hdotpos
  have hL0 : Vec3.length (l.origin - pos) ≠ 0 := ne_of_gt hlenpos
  have hsq : Vec3.length (l.origin - pos) * Vec3.length (l.origin - pos) =
      Vec3.dot (l.origin - pos) (l.origin - pos) := by
    unfold Vec3.length Vec3.lengthSquared
    exact Real.mul_self_sqrt (le_of_lt hdotpos)
  simp only [PointLight.sampleRadiance]
  set dir := (l.origin - pos) / Vec3.length (l.origin - pos) with hdir
  have hdd : Vec3.dot dir dir = 1 := by
    rw [hdir, Vec3.dot_divScalar_self, ← hsq]
    field_simp
  unfold Vec3.length Vec3.lengthSquared
  rw [hdd, Real.sqrt_one]

theorem Vec3.dot_neg_neg (v : Vec3) : Vec3.dot (-v) (-v) = Vec3.dot v v := by
  simp only [Vec3.dot_def, Vec3.neg_x, Vec3.neg_y, Vec3.neg_z]
  ring

/-- A directional light's sample direction is unit length whenever the
light's direction field is. -/
theorem directionalLight_direction_unit (l : DirectionalLight) (pos : Vec3)
    (h : Vec3.length l.direction = 1) :
    Vec3.length (l.sampleRadiance pos).direction = 1 := by
  simp only [DirectionalLight.sampleRadiance]
  unfold Vec3.length Vec3.lengthSquared at h ⊢
  rw [Vec3.dot_neg_neg]
  exact h

/-! ### The claims -/

/-- C1: For every ray and every bounds pair, `Sphere::intersect` returns no
intersection when the discriminant `d = b*b - c` is `<= 0` (with
`b = dot(direction, center - origin)` and `c = dot(oc, oc) - radius²`);
otherwise it returns the first of `t1 = b - sqrt d`, `t2 = b + sqrt d`, in
that order, that lies strictly inside `(minT, maxT)`, populating
`position = origin + t*direction`, `normal = (position - center)/radius` and
`color` = the sphere's albedo; if neither root qualifies it returns no
intersection. -/
theorem sphere_intersect_quadratic_spec :
    ∀ (s : Sphere) (ray : Ray) (minT maxT : EReal),
      s.bCoef ray = Vec3.dot ray.d (s.origin - ray.o) ∧
      s.cCoef ray =
        Vec3.dot (s.origin - ray.o) (s.origin - ray.o) - s.radius * s.radius ∧
      s.disc ray = s.bCoef ray * s.bCoef ray - s.cCoef ray ∧
      s.tNear ray = s.bCoef ray - Real.sqrt (s.disc ray) ∧
      s.tFar ray = s.bCoef ray + Real.sqrt (s.disc ray) ∧
      (∀ t : ℝ, s.hitAt ray t =
        ⟨(t : EReal), ray.o + t * ray.d,
          (ray.o + t * ray.d - s.origin) / s.radius, s.color⟩) ∧
      (s.disc ray ≤ 0 → s.intersect ray minT maxT = noIntersection) ∧
      (0 < s.disc ray →
        ((minT < (s.tNear ray : EReal) ∧ (s.tNear ray : EReal) < maxT) →
          s.intersect ray minT maxT = s.hitAt ray (s.tNear ray)) ∧
        (¬ (minT < (s.tNear ray : EReal) ∧ (s.tNear ray : EReal) < maxT) →
          ((minT < (s.tFar ray : EReal) ∧ (s.tFar ray : EReal) < maxT) →
            s.intersect ray minT maxT = s.hitAt ray (s.tFar ray)) ∧
          (¬ (minT < (s.tFar ray : EReal) ∧ (s.tFar ray : EReal) < maxT) →
            s.intersect ray minT maxT = noIntersection))) := by
  intro s ray minT maxT
  exact ⟨rfl, rfl, rfl, rfl, rfl, fun t => rfl,
    fun hd => Sphere.intersect_of_disc_nonpos s ray minT maxT hd,
    fun hd =>
      ⟨fun h1 => Sphere.intersect_of_tNear s ray minT maxT hd h1,
       fun h1 =>
        ⟨fun h2 => Sphere.intersect_of_tFar s ray minT maxT hd h1 h2,
         fun h2 => Sphere.intersect_of_miss s ray minT maxT hd h1 h2⟩⟩⟩

/-- C2: `Scene::intersect` returns the valid intersection of globally minimal
distance among all spheres' hits strictly inside `(minT, maxT)`, or the
canonical no-intersection value when no sphere is hit; the progressive
narrowing of each per-sphere upper bound to the current best distance does
not change the result (it agrees with the unnarrowed scan). -/
theorem scene_intersect_nearest_spec :
    ∀ (scene : Scene) (ray : Ray) (minT maxT : EReal),
      scene.intersect ray minT maxT = scene.intersectUnnarrowed ray minT maxT ∧
      ((∀ s ∈ scene.spheres, ¬ (s.intersect ray minT maxT).valid) →
        scene.intersect ray minT maxT = noIntersection) ∧
      ((∃ s ∈ scene.spheres, (s.intersect ray minT maxT).valid) →
        (∃ s ∈ scene.spheres,
          scene.intersect ray minT maxT = s.intersect ray minT maxT ∧
          (s.intersect ray minT maxT).valid) ∧
        ∀ s ∈ scene.spheres,
          (scene.intersect ray minT maxT).dist ≤
            (s.intersect ray minT maxT).dist) :=
  fun scene ray minT maxT =>
    ⟨Scene.intersect_eq_unnarrowed scene ray minT maxT,
     Scene.intersect_of_no_hit scene ray minT maxT,
     Scene.intersect_of_hit scene ray minT maxT⟩

/-- C3: For every sphere, ray and bounds pair, `Sphere::intersectAny` returns
true if and only if `Sphere::intersect` returns a valid intersection
(distance < infinity): there is no input on which one reports a hit and the
other does not. -/
theorem sphere_intersectAny_agrees_spec :
    ∀ (s : Sphere) (ray : Ray) (minT maxT : EReal),
      s.intersectAny ray minT maxT = true ↔ (s.intersect ray minT maxT).valid := by
  intro s ray minT maxT
  constructor
  · intro h
    simp only [Sphere.intersectAny, Bool.and_eq_true, Bool.or_eq_true,
      decide_eq_true_eq] at h
    obtain ⟨hd, hcase⟩ := h
    rcases hcase with h1 | h2
    · rw [Sphere.intersect_of_tNear s ray minT maxT hd h1]
      exact Sphere.hitAt_valid s ray (s.tNear ray)
    · by_cases hN : (s.tNear ray : EReal) > minT ∧ (s.tNear ray : EReal) < maxT
      · rw [Sphere.intersect_of_tNear s ray minT maxT hd hN]
        exact Sphere.hitAt_valid s ray (s.tNear ray)
      · rw [Sphere.intersect_of_tFar s ray minT maxT hd hN h2]
        exact Sphere.hitAt_valid s ray (s.tFar ray)
  · intro h
    rcases Sphere.intersect_cases s ray minT maxT with ⟨he, _⟩ | ⟨hd, he, hc⟩ |
      ⟨hd, he, _, hc⟩
    · rw [he] at h
      exact absurd h noIntersection_not_valid
    · simp only [Sphere.intersectAny, Bool.and_eq_true, Bool.or_eq_true,
        decide_eq_true_eq]
      exact ⟨hd, Or.inl hc⟩
    · simp only [Sphere.intersectAny, Bool.and_eq_true, Bool.or_eq_true,
        decide_eq_true_eq]
      exact ⟨hd, Or.inr hc⟩

/-- C4: `TransparencyIntegrator::radiance` starts from accumulated color
`(1,1,1)` and iterates at most 11 segments: at each segment it finds the
nearest hit in `(0, infinity)`; no hit returns the accumulated color, a hit
multiplies the accumulated color by the hit's albedo, orients the normal
against the incoming ray and continues from
`hitPosition - EPSILON * orientedNormal` with the same direction; exhausting
all 11 iterations returns black.  In particular a ray crossing a single
sphere of albedo `a` twice and then escaping yields `a * a`. -/
theorem transparency_radiance_spec :
    (∀ (scene : Scene) (r : Ray),
      TransparencyIntegrator.radiance scene r =
        transparencyLoop scene 11 r (Vec3.splat 1)) ∧
    (∀ (scene : Scene) (r : Ray) (c : Vec3),
      transparencyLoop scene 0 r c = Vec3.splat 0) ∧
    (∀ (scene : Scene) (n : Nat) (r : Ray) (c : Vec3),
      transparencyLoop scene (n + 1) r c =
        if (scene.intersect r 0 ⊤).valid then
          transparencyLoop scene n
            ⟨(scene.intersect r 0 ⊤).pos - EPSILON *
              (if Vec3.dot r.d (scene.intersect r 0 ⊤).normal < 0 then
                (scene.intersect r 0 ⊤).normal
              else -(scene.intersect r 0 ⊤).normal), r.d⟩
            (c * (scene.intersect r 0 ⊤).color)
        else c) ∧
    (∀ a : Vec3,
      TransparencyIntegrator.radiance (sceneSingle a) probeRay = a * a) := by
  refine ⟨fun scene r => rfl, fun scene r c => rfl, fun scene n r c => rfl,
    fun a => ?_⟩
  show transparencyLoop (sceneSingle a) 11 probeRay (Vec3.splat 1) = a * a
  have h11 : transparencyLoop (sceneSingle a) 11 probeRay (Vec3.splat 1) =
      Vec3.splat 1 * a * a := transparencyLoop_enter a 8 (Vec3.splat 1)
  rw [h11, Vec3.splat_one_mul]

/-- C5 (counterexample): on a scene with one white sphere and one point
light, no shadow query finds an occluder, yet the local and the shadowed
diffuse integrators return different values: the shadowed integrator samples
the light at the epsilon-offset shading point `(0,0,3.9999)` rather than at
the hit point `(0,0,4)`, changing the inverse-square falloff. -/
theorem diffuse_local_vs_direct_counterexample :
    Scene.intersectAny scenePoint ⟨⟨0, 0, 3.9999⟩, ⟨0, 0, -1⟩⟩ 0
        ((3.9999 : ℝ) : EReal) = false ∧
    DiffuseLocalDirectIlluminationIntegrator.radiance scenePoint probeRay ≠
      DiffuseDirectIlluminationIntegrator.radiance scenePoint probeRay := by
  refine ⟨scenePoint_shadow_false _, ?_⟩
  rw [diffuseLocal_scenePoint, diffuseDirect_scenePoint]
  intro h
  have hx := congrArg Vec3.x h
  simp only [Vec3.splat_x] at hx
  have hne : INV_PI ≠ 0 := by
    unfold INV_PI PI
    exact one_div_ne_zero Real.pi_ne_zero
  have h2 : INV_PI * 1 = INV_PI * (16 / 15.99920001) := by
    rw [mul_one]
    exact hx
  have h3 : (1 : ℝ) = 16 / 15.99920001 := mul_left_cancel₀ hne h2
  norm_num at h3

/-- C5 (amended): when the scene has no point, cone or cylinder lights and no
object occludes any of the directional shadow queries issued from the
epsilon-offset shading point, the local and the shadowed diffuse integrators
return exactly the same value.  (As stated over all light kinds the claim
fails, because the shadowed integrator samples position-dependent lights at
the epsilon-offset shading point.) -/
theorem diffuse_local_eq_direct_unoccluded (scene : Scene) (ray : Ray)
    (hp : scene.pointLights = [])
    (hc : scene.coneLights = [])
    (hcy : scene.cylinderLights = [])
    (hshadow : ∀ dl ∈ scene.directionalLights,
      scene.intersectAny
        ⟨DiffuseDirectIlluminationIntegrator.shadingPoint scene ray,
          (dl.sampleRadiance
            (DiffuseDirectIlluminationIntegrator.shadingPoint scene ray)).direction⟩
        0
        (dl.sampleRadiance
          (DiffuseDirectIlluminationIntegrator.shadingPoint scene ray)).distanceToLight =
        false) :
    DiffuseLocalDirectIlluminationIntegrator.radiance scene ray =
      DiffuseDirectIlluminationIntegrator.radiance scene ray := by
  by_cases hv : (scene.intersect ray 0 ⊤).valid
  · simp only [DiffuseLocalDirectIlluminationIntegrator.radiance,
      DiffuseDirectIlluminationIntegrator.radiance]
    rw [if_pos hv, if_pos hv]
    rw [hp, hc, hcy]
    simp only [List.foldl_nil]
    apply List.foldl_ext
    intro b dl hdl
    have hq := hshadow dl hdl
    simp only [DiffuseDirectIlluminationIntegrator.shadingPoint] at hq
    simp only [diffuseLocalContribution, diffuseDirectContribution,
      DirectionalLight.sampleRadiance] at hq ⊢
    simp only [hq]
    rw [if_neg Bool.false_ne_true]
  · simp only [DiffuseLocalDirectIlluminationIntegrator.radiance,
      DiffuseDirectIlluminationIntegrator.radiance]
    rw [if_neg hv, if_neg hv]

/-- Witness for the amended C5: one white sphere and one directional light
travelling along `+z`; the shadow probe from `(0,0,3.9999)` back toward the
light finds nothing, and the two integrators agree. -/
theorem diffuse_local_eq_direct_unoccluded_witness :
    DiffuseLocalDirectIlluminationIntegrator.radiance sceneDir probeRay =
      DiffuseDirectIlluminationIntegrator.radiance sceneDir probeRay :=
  diffuse_local_eq_direct_unoccluded sceneDir probeRay rfl rfl rfl
    (by
      intro dl hdl
      have hdl' : dl = ⟨Vec3.splat 1, ⟨0, 0, 1⟩⟩ := by
        simpa [sceneDir] using hdl
      subst hdl'
      rw [sceneDir_shadingPoint]
      simp only [DirectionalLight.sampleRadiance]
      rw [show -(⟨0, 0, 1⟩ : Vec3) = (⟨0, 0, -1⟩ : Vec3) from by ext <;> norm_num]
      exact sceneDir_shadow_false ⊤)

/-- C6: for every scene and ray with a valid nearest hit, the local diffuse
integrator returns `PI * albedo * ambientRadiance` (with
`albedo = surfaceColor * INV_PI`, so the ambient term equals
`surfaceColor * ambientRadiance` componentwise) plus, summed over every
point, directional, cone and cylinder light,
`albedo * incidentRadiance * max(0, dot(orientedNormal, directionToLight))`;
with no hit the result is black. -/
theorem diffuse_local_radiance_formula :
    ∀ (scene : Scene) (ray : Ray),
      (¬ (scene.intersect ray 0 ⊤).valid →
        DiffuseLocalDirectIlluminationIntegrator.radiance scene ray =
          Vec3.splat 0) ∧
      ((scene.intersect ray 0 ⊤).valid →
        DiffuseLocalDirectIlluminationIntegrator.radiance scene ray =
          PI * ((scene.intersect ray 0 ⊤).color * INV_PI) *
            scene.ambientLight.radiance +
          (scene.pointLights.map fun l =>
            (scene.intersect ray 0 ⊤).color * INV_PI *
              (l.sampleRadiance (scene.intersect ray 0 ⊤).pos).radiance *
              fmax 0 (Vec3.dot (orientedNormal ray (scene.intersect ray 0 ⊤))
                (l.sampleRadiance (scene.intersect ray 0 ⊤).pos).direction)).sum +
          (scene.directionalLights.map fun l =>
            (scene.intersect ray 0 ⊤).color * INV_PI *
              (l.sampleRadiance (scene.intersect ray 0 ⊤).pos).radiance *
              fmax 0 (Vec3.dot (orientedNormal ray (scene.intersect ray 0 ⊤))
                (l.sampleRadiance (scene.intersect ray 0 ⊤).pos).direction)).sum +
          (scene.coneLights.map fun l =>
            (scene.intersect ray 0 ⊤).color * INV_PI *
              (l.sampleRadiance (scene.intersect ray 0 ⊤).pos).radiance *
              fmax 0 (Vec3.dot (orientedNormal ray (scene.intersect ray 0 ⊤))
                (l.sampleRadiance (scene.intersect ray 0 ⊤).pos).direction)).sum +
          (scene.cylinderLights.map fun l =>
            (scene.intersect ray 0 ⊤).color * INV_PI *
              (l.sampleRadiance (scene.intersect ray 0 ⊤).pos).radiance *
              fmax 0 (Vec3.dot (orientedNormal ray (scene.intersect ray 0 ⊤))
                (l.sampleRadiance (scene.intersect ray 0 ⊤).pos).direction)).sum) ∧
      (∀ c r : Vec3, PI * (c * INV_PI) * r = c * r) := by
  intro scene ray
  refine ⟨fun hv => ?_, fun hv => ?_, fun c r => ?_⟩
  · simp only [DiffuseLocalDirectIlluminationIntegrator.radiance]
    rw [if_neg hv]
  · simp only [DiffuseLocalDirectIlluminationIntegrator.radiance, orientedNormal,
      AmbientLight.sampleRadiance]
    rw [if_pos hv]
    simp only [foldl_add_map_sum, diffuseLocalContribution, Vec3.mul_one_scalar]
    rw [Vec3.splat_zero_add]
  · have hpi : PI * INV_PI = 1 := by
      unfold INV_PI
      exact mul_one_div_cancel (by unfold PI; exact Real.pi_ne_zero)
    ext
    · simp only [Vec3.hmul_x, Vec3.scalarMul_x, Vec3.mulScalar_x]
      linear_combination c.x * r.x * hpi
    · simp only [Vec3.hmul_y, Vec3.scalarMul_y, Vec3.mulScalar_y]
      linear_combination c.y * r.y * hpi
    · simp only [Vec3.hmul_z, Vec3.scalarMul_z, Vec3.mulScalar_z]
      linear_combination c.z * r.z * hpi

/-- C7 (counterexample): the Ambient light's sample direction is the zero
vector, which is not unit length, so the claim fails for the Ambient
variant. -/
theorem light_sample_unit_counterexample :
    Vec3.length
      ((AmbientLight.sampleRadiance ⟨Vec3.splat 1⟩ (Vec3.splat 0)).direction) ≠
    1 := by
  simp only [AmbientLight.sampleRadiance]
  unfold Vec3.length Vec3.lengthSquared
  rw [show Vec3.dot (Vec3.splat 0) (Vec3.splat 0) = 0 by norm_num [Vec3.dot_def]]
  rw [Real.sqrt_zero]
  norm_num

/-- C7 (amended): a Point or Cone light sampled at a point distinct from the
light's position returns a unit-length `directionToLight` pointing from the
shading point toward the light; a Directional or Cylinder light whose
direction field is unit length returns a unit-length `directionToLight`; an
Ambient light's sample direction is the zero vector (it is never used for
shading). -/
theorem light_sample_direction_spec :
    (∀ (l : PointLight) (pos : Vec3), pos ≠ l.origin →
      (l.sampleRadiance pos).direction =
        (l.origin - pos) / Vec3.length (l.origin - pos) ∧
      Vec3.length (l.sampleRadiance pos).direction = 1) ∧
    (∀ (l : ConeLight) (pos : Vec3), pos ≠ l.origin →
      Vec3.length (l.sampleRadiance pos).direction = 1) ∧
    (∀ (l : DirectionalLight) (pos : Vec3), Vec3.length l.direction = 1 →
      Vec3.length (l.sampleRadiance pos).direction = 1) ∧
    (∀ (l : CylinderLight) (pos : Vec3), Vec3.length l.direction = 1 →
      Vec3.length (l.sampleRadiance pos).direction = 1) ∧
    (∀ (l : AmbientLight) (pos : Vec3),
      (l.sampleRadiance pos).direction = Vec3.splat 0) := by
  refine ⟨fun l pos h => ⟨rfl, pointLight_direction_unit l pos h⟩,
    fun l pos h => ?_, fun l pos h => directionalLight_direction_unit l pos h,
    fun l pos h => ?_, fun l pos => rfl⟩
  · simp only [ConeLight.sampleRadiance]
    exact pointLight_direction_unit ⟨l.intensity, l.origin⟩ pos h
  · simp only [CylinderLight.sampleRadiance]
    exact directionalLight_direction_unit ⟨l.radiosity, l.direction⟩ pos h

/-- C8: for every ray and bounds pair, and any two scenes whose sphere
collections are permutations of each other such that no two distinct spheres
produce valid hits at exactly equal distances, `Scene::intersect` returns the
same intersection (reorder invariance). -/
theorem scene_intersect_reorder_invariant (ray : Ray) (minT maxT : EReal)
    (scene1 scene2 : Scene) (hperm : scene1.spheres.Perm scene2.spheres)
    (htie : ∀ s1 ∈ scene1.spheres, ∀ s2 ∈ scene1.spheres, s1 ≠ s2 →
      (s1.intersect ray minT maxT).valid → (s2.intersect ray minT maxT).valid →
      (s1.intersect ray minT maxT).dist ≠ (s2.intersect ray minT maxT).dist) :
    scene1.intersect ray minT maxT = scene2.intersect ray minT maxT := by
  by_cases hex : ∃ s ∈ scene1.spheres, (s.intersect ray minT maxT).valid
  · obtain ⟨⟨s1, hs1, he1, hv1⟩, hmin1⟩ :=
      Scene.intersect_of_hit scene1 ray minT maxT hex
    obtain ⟨s0, hs0, hv0⟩ := hex
    have hex2 : ∃ s ∈ scene2.spheres, (s.intersect ray minT maxT).valid :=
      ⟨s0, hperm.mem_iff.mp hs0, hv0⟩
    obtain ⟨⟨s2, hs2, he2, hv2⟩, hmin2⟩ :=
      Scene.intersect_of_hit scene2 ray minT maxT hex2
    have h12 : (s1.intersect ray minT maxT).dist ≤
        (s2.intersect ray minT maxT).dist := by
      rw [← he1]
      exact hmin1 s2 (hperm.mem_iff.mpr hs2)
    have h21 : (s2.intersect ray minT maxT).dist ≤
        (s1.intersect ray minT maxT).dist := by
      rw [← he2]
      exact hmin2 s1 (hperm.mem_iff.mp hs1)
    by_cases hss : s1 = s2
    · rw [he1, he2, hss]
    · exact absurd (le_antisymm h12 h21)
        (htie s1 hs1 s2 (hperm.mem_iff.mpr hs2) hss hv1 hv2)
  · have hno1 : ∀ s ∈ scene1.spheres, ¬ (s.intersect ray minT maxT).valid :=
      fun s hs hv => hex ⟨s, hs, hv⟩
    have hno2 : ∀ s ∈ scene2.spheres, ¬ (s.intersect ray minT maxT).valid :=
      fun s hs hv => hex ⟨s, hperm.mem_iff.mpr hs, hv⟩
    rw [Scene.intersect_of_no_hit scene1 ray minT maxT hno1,
      Scene.intersect_of_no_hit scene2 ray minT maxT hno2]

/-- Witness for C8: two spheres on the probe axis hit at distances 4 and 9;
swapping their order leaves the scene query unchanged. -/
theorem scene_intersect_reorder_invariant_witness :
    Scene.intersect scenePerm1 probeRay 0 ⊤ =
      Scene.intersect scenePerm2 probeRay 0 ⊤ :=
  scene_intersect_reorder_invariant probeRay 0 ⊤ scenePerm1 scenePerm2
    (List.Perm.swap (sphereAt10 ⟨0, 1, 0⟩) (sphereAt5 ⟨1, 0, 0⟩) [])
    (by
      intro s1 hs1 s2 hs2 hne hv1 hv2
      have hs1' : s1 = sphereAt5 ⟨1, 0, 0⟩ ∨ s1 = sphereAt10 ⟨0, 1, 0⟩ := by
        simpa [scenePerm1] using hs1
      have hs2' : s2 = sphereAt5 ⟨1, 0, 0⟩ ∨ s2 = sphereAt10 ⟨0, 1, 0⟩ := by
        simpa [scenePerm1] using hs2
      rcases hs1' with rfl | rfl <;> rcases hs2' with rfl | rfl
      · exact absurd rfl hne
      · rw [sphereAt5_hit_probe, sphereAt10_hit_probe]
        simp only [Intersection.mk_dist]
        intro hcontra
        rw [EReal.coe_eq_coe_iff] at hcontra
        norm_num at hcontra
      · rw [sphereAt5_hit_probe, sphereAt10_hit_probe]
        simp only [Intersection.mk_dist]
        intro hcontra
        rw [EReal.coe_eq_coe_iff] at hcontra
        norm_num at hcontra
      · exact absurd rfl hne)

/-- C9: when the sphere collection splits as `pre ++ s1 :: post` with `s1`
hit at distance `t` strictly below the upper bound, every sphere before `s1`
hit strictly beyond `t` and every sphere after `s1` hit at distance at least
`t` (equality — a tie — allowed), `Scene::intersect` returns `s1`'s whole
intersection record: each later sphere is queried with the upper bound
narrowed to the current best distance, and the strict `<` test excludes an
equal-distance hit. -/
theorem scene_intersect_tie_prefers_earlier (scene : Scene) (ray : Ray)
    (minT maxT : EReal) (pre post : List Sphere) (s1 : Sphere) (t : ℝ)
    (hsp : scene.spheres = pre ++ s1 :: post)
    (h1 : (s1.intersect ray minT maxT).dist = (t : EReal))
    (hmax : (t : EReal) < maxT)
    (hpre : ∀ s ∈ pre, (t : EReal) < (s.intersect ray minT maxT).dist)
    (hpost : ∀ s ∈ post, (t : EReal) ≤ (s.intersect ray minT maxT).dist) :
    scene.intersect ray minT maxT = s1.intersect ray minT maxT :=
  Scene.intersect_first_min scene ray minT maxT pre post s1 t hsp h1 hmax hpre
    hpost

/-- Witness for C9: two spheres with identical geometry (both hit at `t = 4`)
but different albedos; the scan returns the record of the first. -/
theorem scene_intersect_tie_prefers_earlier_witness :
    Scene.intersect sceneTie probeRay 0 ⊤ =
      Sphere.intersect (sphereAt5 ⟨1, 0, 0⟩) probeRay 0 ⊤ :=
  scene_intersect_tie_prefers_earlier sceneTie probeRay 0 ⊤ []
    [sphereAt5 ⟨0, 0, 1⟩] (sphereAt5 ⟨1, 0, 0⟩) 4 rfl
    (by rw [sphereAt5_hit_probe])
    (EReal.coe_lt_top 4)
    (by intro s hs; exact absurd hs (List.not_mem_nil s))
    (by
      intro s hs
      rcases List.mem_singleton.mp hs with rfl
      rw [sphereAt5_hit_probe])

/-- C10: with an empty query range (`minT >= maxT`) every query comes back
empty: `Sphere::intersect` and `Scene::intersect` return the no-intersection
value and `Sphere::intersectAny` and `Scene::intersectAny` return false,
since no `t` can satisfy `t > minT` and `t < maxT`. -/
theorem intersect_empty_range_spec (s : Sphere) (scene : Scene) (ray : Ray)
    (minT maxT : EReal) (h : minT ≥ maxT) :
    s.intersect ray minT maxT = noIntersection ∧
    s.intersectAny ray minT maxT = false ∧
    scene.intersect ray minT maxT = noIntersection ∧
    scene.intersectAny ray minT maxT = false :=
  ⟨Sphere.intersect_of_empty_range s ray minT maxT h,
   Sphere.intersectAny_of_empty_range s ray minT maxT h,
   Scene.intersect_empty_range scene ray minT maxT h,
   Scene.intersectAny_empty_range scene ray minT maxT h⟩

/-- Witness for C10 at the concrete empty range `(1, 0)`. -/
theorem intersect_empty_range_spec_witness :
    Sphere.intersect (sphereAt5 (Vec3.splat 1)) probeRay 1 0 = noIntersection ∧
    Sphere.intersectAny (sphereAt5 (Vec3.splat 1)) probeRay 1 0 = false ∧
    Scene.intersect (sceneSingle (Vec3.splat 1)) probeRay 1 0 = noIntersection ∧
    Scene.intersectAny (sceneSingle (Vec3.splat 1)) probeRay 1 0 = false :=
  intersect_empty_range_spec (sphereAt5 (Vec3.splat 1))
    (sceneSingle (Vec3.splat 1)) probeRay 1 0 zero_le_one

end



